import Mathlib

/-!
Verification development for the engine-deals-ai listing aggregation and
deal-scoring pipeline.  Python code is shallowly embedded: pure functions
become Lean functions, mutable objects become explicit state passing,
`float` arithmetic is modelled by exact rationals, `None`/`NaN` by `Option`
or a dedicated `Cell.na` constructor, and raised exceptions by `Except`.
External libraries (numpy's `log1p`, `json.loads`, timestamp parsing,
fitted sklearn estimators) are modelled as explicit function parameters.
-/

set_option maxRecDepth 100000

namespace EngineDeals

/-! ## Python string primitives

Helpers mirroring the Python string operations used by the scrapers and the
feature engineer.  All inputs in this codebase are ASCII, for which
`Char.toLower`, `Char.isUpper` etc. agree with Python's `str` methods. -/

/-- Python `str.lower()` (ASCII): lowercase every character. -/
def pyLower (s : String) : String := String.mk (s.data.map Char.toLower)

/-- Python substring containment `needle in hay`. -/
def containsSub (needle hay : String) : Bool :=
  hay.data.tails.any (fun t => needle.data.isPrefixOf t)

/-- A regex word character `\w` = `[A-Za-z0-9_]` (ASCII). -/
def isWordChar (c : Char) : Bool := c.isAlpha || c.isDigit || c = '_'

/-- Is there a `\b` word boundary between a prefix and what follows it
(looking at the last character of the prefix)? -/
def boundaryBefore (pre : List Char) : Bool :=
  match pre.getLast? with
  | none => true
  | some c => !isWordChar c

/-- Is there a `\b` word boundary at the start of a suffix (looking at its
first character)? -/
def boundaryAfter (suf : List Char) : Bool :=
  match suf.head? with
  | none => true
  | some c => !isWordChar c

/-- All ways to split a character list into `prefix ++ suffix`. -/
def splitsOf (s : List Char) : List (List Char × List Char) :=
  s.inits.zip s.tails

/-- Regex search for a literal word with `\b` boundaries on both sides,
e.g. `\bnew\b`, `\bv8\b`, `\blq4\b`, `\bblock\b`. -/
def containsWord (w text : String) : Bool :=
  (splitsOf text.data).any fun pr =>
    boundaryBefore pr.1 && w.data.isPrefixOf pr.2 &&
      boundaryAfter (pr.2.drop w.data.length)

/-- Regex search for `\b\d{4,}\b` (a maximal digit run of length at least 4
delimited by word boundaries).  Backtracking cannot shorten the run below
its maximal length and still meet the trailing `\b`, because every shorter
cut would sit between two digits. -/
def hasDigitRun4 (text : String) : Bool :=
  (splitsOf text.data).any fun pr =>
    boundaryBefore pr.1 &&
      (let ds := pr.2.takeWhile Char.isDigit
       decide (4 ≤ ds.length) && boundaryAfter (pr.2.drop ds.length))

/-- Regex search for `\b(?:19|20)\d{2}\b` (a 4-digit year token). -/
def hasYearPattern (text : String) : Bool :=
  (splitsOf text.data).any fun pr =>
    boundaryBefore pr.1 &&
      (match pr.2 with
       | c1 :: c2 :: c3 :: c4 :: rest =>
         ((c1 = '1' && c2 = '9') || (c1 = '2' && c2 = '0')) &&
           c3.isDigit && c4.isDigit && boundaryAfter rest
       | _ => false)

/-- The `\s*(?:miles?|mi)\b` tail of the mileage regex, applied after the
digits (and optional `k`) have been consumed. -/
def mileageTail (rest : List Char) : Bool :=
  let r := rest.dropWhile Char.isWhitespace
  ("miles".data.isPrefixOf r && boundaryAfter (r.drop 5)) ||
  ("mile".data.isPrefixOf r && boundaryAfter (r.drop 4)) ||
  ("mi".data.isPrefixOf r && boundaryAfter (r.drop 2))

/-- Regex search for `\b\d+k?\s*(?:miles?|mi)\b` (a mileage mention).
`\d+` must take the whole digit run: stopping earlier leaves a digit where
`k`/whitespace/`m` is required. -/
def hasMileagePattern (text : String) : Bool :=
  (splitsOf text.data).any fun pr =>
    boundaryBefore pr.1 &&
      (let ds := pr.2.takeWhile Char.isDigit
       decide (1 ≤ ds.length) &&
         (let rest := pr.2.drop ds.length
          mileageTail rest ||
            (match rest with
             | 'k' :: r2 => mileageTail r2
             | _ => false)))

/-- Regex search for `\bls[0-9]?\b` ("LS"-family engine naming). -/
def hasLsPattern (text : String) : Bool :=
  (splitsOf text.data).any fun pr =>
    boundaryBefore pr.1 &&
      (match pr.2 with
       | 'l' :: 's' :: rest =>
         (match rest with
          | c :: rest2 => (c.isDigit && boundaryAfter rest2) || boundaryAfter rest
          | [] => true)
       | _ => false)

/-- Python `str.split()`: split on whitespace runs, dropping empty pieces.
The accumulator holds the current word reversed. -/
def pyWordsAux : List Char → List Char → List (List Char)
  | [], acc => if acc.isEmpty then [] else [acc.reverse]
  | c :: cs, acc =>
    if c.isWhitespace then
      if acc.isEmpty then pyWordsAux cs [] else acc.reverse :: pyWordsAux cs []
    else pyWordsAux cs (c :: acc)

/-- Python `str.split()` as a word list. -/
def pyWords (s : String) : List (List Char) := pyWordsAux s.data []

/-! ## scrapers/base_scraper.py -/

/-- The engine-part terms of `BaseScraper.is_relevant_listing`. -/
def engineTerms : List String :=
  ["engine", "motor", "block", "head", "intake", "crank", "piston",
   "long block", "short block"]

/-- The exclusion terms of `BaseScraper.is_relevant_listing`. -/
def excludeTerms : List String :=
  ["boat", "marine", "motorcycle", "lawn", "generator", "pump", "compressor"]

/-- `BaseScraper.is_relevant_listing` (scrapers/base_scraper.py, lines
86-100): lowercase `f"{title} {description}"`, require an engine term and
no exclusion term. -/
def is_relevant_listing (title : String) (description : String) : Bool :=
  let text := pyLower (title ++ " " ++ description)
  let has_engine_term := engineTerms.any (fun term => containsSub term text)
  if has_engine_term then
    let has_exclude_term := excludeTerms.any (fun term => containsSub term text)
    if !has_exclude_term then true else false
  else
    false

/-- `Config.GOOD_CONDITION_KEYWORDS` (config.py). -/
def goodConditionKeywords : List String :=
  ["rebuilt", "remanufactured", "new", "excellent", "perfect",
   "low miles", "fresh rebuild", "zero miles", "unused"]

/-- `Config.BAD_CONDITION_KEYWORDS` (config.py). -/
def badConditionKeywords : List String :=
  ["spun bearing", "cracked", "damaged", "blown", "seized",
   "needs work", "for parts", "rebuild needed", "bad"]

/-- `BaseScraper.extract_condition_keywords` (scrapers/base_scraper.py,
lines 68-84): collect `good_`-tagged then `bad_`-tagged keywords whose
lowercase form occurs in the lowercase text, in configuration order. -/
def extract_condition_keywords (text : String) : List String :=
  if text = "" then []
  else
    let text_lower := pyLower text
    ((goodConditionKeywords.filter fun k =>
        containsSub (pyLower k) text_lower).map (fun k => "good_" ++ k)) ++
    ((badConditionKeywords.filter fun k =>
        containsSub (pyLower k) text_lower).map (fun k => "bad_" ++ k))

/-! ## Timestamps

A timestamp as far as the pipeline observes one: `pd.Timestamp` exposes
`.hour`, `.dayofweek` and a linear time axis (here `secs`, seconds since an
arbitrary epoch, as an exact rational). -/

structure Ts where
  hour : ℕ
  dayofweek : ℕ
  secs : ℚ
deriving DecidableEq

/-! ## data/database.py — DatabaseManager

The sqlite state is modelled by explicit tables.  Only the operations the
claims rely on are embedded; each mirrors one method of `DatabaseManager`. -/

/-- The listing dict handed to `DatabaseManager.insert_listing`, after the
`.get(...)` defaulting done inside that method. -/
structure ListingData where
  platform : String
  title : String
  description : String
  price : Option ℚ
  location : String
  seller_name : String
  url : String
  image_urls : List String
  condition_keywords : List String
deriving DecidableEq

/-- One row of the `listings` table (schema in `init_database`). -/
structure StoredListing where
  id : ℕ
  platform : String
  title : String
  description : String
  price : Option ℚ
  location : String
  seller_name : String
  url : String
  image_urls : List String
  condition_keywords : List String
  scraped_at : Ts
  is_active : Bool
  deal_score : Option ℚ
  is_hot_deal : Bool
deriving DecidableEq

/-- One row of the `training_data` table. -/
structure TrainingLabel where
  id : ℕ
  listing_id : ℕ
  is_good_deal : Bool
  user_rating : Option ℤ
deriving DecidableEq

/-- One row of the append-only `notifications` table. -/
structure NotificationRow where
  listing_id : ℤ
  notification_type : String
  success : Bool
deriving DecidableEq

/-- The sqlite database state: the three tables plus the `listings` table's
AUTOINCREMENT counter (`nextId` is the rowid the next successful insert
receives; sqlite starts at 1). -/
structure ListingsDB where
  rows : List StoredListing
  nextId : ℕ
  labels : List TrainingLabel
  notifications : List NotificationRow
deriving DecidableEq

/-- The stored row created by a successful insert: the listing's columns
plus the schema defaults (`scraped_at` CURRENT_TIMESTAMP, `is_active`
TRUE, `deal_score` NULL, `is_hot_deal` FALSE). -/
def storedOf (ld : ListingData) (id : ℕ) (now : Ts) : StoredListing :=
  { id := id, platform := ld.platform, title := ld.title,
    description := ld.description, price := ld.price,
    location := ld.location, seller_name := ld.seller_name,
    url := ld.url, image_urls := ld.image_urls,
    condition_keywords := ld.condition_keywords,
    scraped_at := now, is_active := true,
    deal_score := none, is_hot_deal := false }

/-- `DatabaseManager.insert_listing` (data/database.py, lines 62-92).
The statement is `INSERT OR IGNORE`, so a duplicate `url` (the only UNIQUE
column) raises no `sqlite3.IntegrityError` — the `except` branch returning
`None` is unreachable.  On an ignored insert, `cursor.lastrowid` is
`sqlite3_last_insert_rowid()` of the freshly opened connection, which has
performed no insert, i.e. `0`; the method returns that `0`.  The result
`Option ℤ` maps Python `None` to `none` and an `int n` to `some n`. -/
def insert_listing (db : ListingsDB) (now : Ts) (ld : ListingData) :
    ListingsDB × Option ℤ :=
  if db.rows.any (fun r => r.url = ld.url) then
    (db, some 0)
  else
    ({ db with
        rows := db.rows ++ [storedOf ld db.nextId now],
        nextId := db.nextId + 1 },
     some (db.nextId : ℤ))

/-- `DatabaseManager.log_notification` (data/database.py, lines 172-183):
append one row to the `notifications` table. -/
def log_notification (db : ListingsDB) (listing_id : ℤ)
    (notification_type : String) (success : Bool) : ListingsDB :=
  { db with
      notifications :=
        db.notifications ++ [⟨listing_id, notification_type, success⟩] }

/-- One output row of `DatabaseManager.get_listings_for_training`:
`SELECT l.*, t.is_good_deal, t.user_rating` — the listing columns plus the
(possibly NULL) joined label columns. -/
structure TrainQueryRow where
  listing : StoredListing
  is_good_deal : Option Bool
  user_rating : Option ℤ
deriving DecidableEq

/-- `DatabaseManager.get_listings_for_training` (data/database.py, lines
108-122): `FROM listings l LEFT JOIN training_data t ON l.id = t.listing_id
WHERE l.price IS NOT NULL AND l.price > 0`.  Every positively priced
listing is returned — one row per matching label, or a single row with
NULL label columns when no label matches. -/
def get_listings_for_training (db : ListingsDB) : List TrainQueryRow :=
  (db.rows.filter (fun l =>
    match l.price with
    | some p => decide (0 < p)
    | none => false)).flatMap (fun l =>
      match db.labels.filter (fun t => t.listing_id = l.id) with
      | [] => [⟨l, none, none⟩]
      | ms => ms.map (fun t => ⟨l, some t.is_good_deal, t.user_rating⟩))

/-! ## scraper_manager.py — ScraperManager -/

/-- The outcome of one adapter's `scrape_listings` call: the listing dicts
it returned, or the exception (by message) it let escape. -/
abbrev ScrapeOutcome := Except String (List ListingData)

/-- `ScraperManager.scrape_all_platforms` (scraper_manager.py, lines
20-40): iterate the registered scrapers in order; a `try`/`except` around
each platform keeps the accumulated `all_listings` and continues with the
next platform when one raises. -/
def scrape_all_platforms (scrapers : List (String × ScrapeOutcome)) :
    List ListingData :=
  scrapers.foldl
    (fun all_listings s =>
      match s.2 with
      | .ok listings => all_listings ++ listings
      | .error _ => all_listings)
    []

/-! ## scheduler/job_scheduler.py — hot-deal notification dispatch -/

/-- The fields of a hot-deal dict that `_send_hot_deal_notifications`
feeds to the database log: its listing id. -/
structure HotDeal where
  id : ℤ
deriving DecidableEq

/-- Modelled from the spec: the notifier interface of spec section 6 —
`sendHotDealAlert(listing) -> success boolean`.  The repository's
`EmailNotifier` (notifications/email_sender.py) is imported but its source
is not under src/; `DiscordNotifier.send_hot_deal_alert` catches its own
exceptions and returns a bool, matching this contract.  A configured
channel is therefore a total function from deal to success flag; an
unconfigured channel is `none`. -/
structure Notifiers where
  discord : Option (HotDeal → Bool)
  email : Option (HotDeal → Bool)

/-- `JobScheduler._send_hot_deal_notifications` (scheduler/job_scheduler.py,
lines 121-135): if a discord notifier is configured, send and log its
outcome; then, independently, the same for email. -/
def send_hot_deal_notifications (notifiers : Notifiers) (db : ListingsDB)
    (deal : HotDeal) : ListingsDB :=
  let db1 :=
    match notifiers.discord with
    | some send => log_notification db deal.id "discord" (send deal)
    | none => db
  match notifiers.email with
  | some send => log_notification db1 deal.id "email" (send deal)
  | none => db1

/-! ## scheduler/job_scheduler.py — model retraining job -/

/-- The persisted model artifact set (model.pkl, feature_scaler.pkl and the
feature-column metadata written by `save_model`), abstracted to the
training rows the artifacts were fitted from. -/
structure Artifacts where
  trainedFrom : List TrainQueryRow
deriving DecidableEq

/-- `JobScheduler._run_model_retraining` (scheduler/job_scheduler.py, lines
159-176): pull the training query rows; if fewer than 50, skip (leaving
the persisted artifacts untouched); otherwise call `train_model` and
`save_model`, overwriting the artifacts.  The numeric fitting itself is
external (sklearn) and abstracted to "artifacts fitted from these rows".
Returns the artifact state after the job and whether retraining ran. -/
def run_model_retraining (db : ListingsDB) (art : Option Artifacts) :
    Option Artifacts × Bool :=
  let training_df := get_listings_for_training db
  if training_df.length < 50 then
    (art, false)
  else
    (some ⟨training_df⟩, true)

/-! ## Data frames

A pandas DataFrame is modelled column-wise: an ordered association list
from column name to that column's cells.  All columns of a well-formed
frame have the same length (`DF.wf`).  `Cell.na` models both NaN and a
missing value; Python float arithmetic is modelled by exact rationals. -/

inductive Cell where
  | na
  | num (q : ℚ)
  | str (s : String)
  | strList (l : List String)
  | boolean (b : Bool)
  | time (t : Ts)
deriving DecidableEq

abbrev ColName := String

structure DF where
  columns : List (ColName × List Cell)
deriving DecidableEq

/-- The column labels, in order. -/
def DF.cols (df : DF) : List ColName := df.columns.map Prod.fst

/-- Python `c in df.columns`. -/
def DF.hasCol (df : DF) (c : ColName) : Bool := df.cols.contains c

/-- The cells of column `c` (callers only use this on present columns). -/
def DF.col (df : DF) (c : ColName) : List Cell :=
  ((df.columns.find? (fun p => p.1 = c)).map Prod.snd).getD []

/-- Column assignment `df[c] = v`: overwrite in place when the column
exists, else append it as the last column (pandas semantics). -/
def DF.setCol (df : DF) (c : ColName) (v : List Cell) : DF :=
  if df.hasCol c then
    ⟨df.columns.map (fun p => if p.1 = c then (c, v) else p)⟩
  else
    ⟨df.columns ++ [(c, v)]⟩

/-- The number of rows (length of the first column). -/
def DF.nrows (df : DF) : ℕ :=
  match df.columns with
  | [] => 0
  | p :: _ => p.2.length

/-- Every column has the same length. -/
def DF.wf (df : DF) : Bool := df.columns.all (fun p => p.2.length = df.nrows)

/-- The value of a float-series cell (`NaN`/non-numeric gives `none`). -/
def Cell.fnum : Cell → Option ℚ
  | .num q => some q
  | _ => none

/-- Elementwise binary arithmetic between float series: NaN propagates. -/
def cellOp2 (f : ℚ → ℚ → ℚ) (a b : Cell) : Cell :=
  match a.fnum, b.fnum with
  | some x, some y => .num (f x y)
  | _, _ => .na

/-- Elementwise scaling of a float series (`series * k`): NaN propagates. -/
def cellScale (k : ℚ) (c : Cell) : Cell :=
  match c.fnum with
  | some v => .num (k * v)
  | none => .na

/-- External library functions, passed in explicitly: numpy's `log1p`,
`json.loads` restricted to string arrays (it is only applied to the
`condition_keywords` column, which stores JSON string arrays), and pandas'
timestamp parsing for `pd.to_datetime` on string-typed timestamps. -/
structure PyLibs where
  log1p : ℚ → ℚ
  jsonLoads : String → List String
  parseTs : String → Ts

/-! ## ml/feature_engineering.py — FeatureEngineer -/

/-- `FeatureEngineer._caps_ratio` (ml/feature_engineering.py, lines
145-149): uppercase characters over length; 0 for empty text. -/
def caps_ratio (text : String) : ℚ :=
  if text.data.isEmpty then 0
  else ((text.data.countP Char.isUpper : ℚ)) / ((text.data.length : ℚ))

/-- The city table of `FeatureEngineer._estimate_distance` (lines
158-164), in Python dict (insertion) order. -/
def city_distances : List (String × ℚ) :=
  [("new york", 0), ("nyc", 0), ("manhattan", 0), ("brooklyn", 10),
   ("philadelphia", 95), ("boston", 215), ("washington", 225),
   ("chicago", 790), ("detroit", 640), ("atlanta", 870),
   ("miami", 1280), ("houston", 1630), ("dallas", 1550),
   ("los angeles", 2800), ("san francisco", 2900), ("seattle", 2900)]

/-- The state table of `FeatureEngineer._estimate_distance` (lines
170-175), in Python dict (insertion) order. -/
def state_distances : List (String × ℚ) :=
  [("ny", 100), ("nj", 50), ("ct", 100), ("pa", 150), ("ma", 200),
   ("md", 250), ("va", 350), ("nc", 500), ("sc", 650), ("ga", 850),
   ("fl", 1200), ("oh", 500), ("mi", 650), ("il", 800), ("in", 700),
   ("tx", 1600), ("ca", 2800), ("wa", 2900), ("or", 2800)]

/-- `FeatureEngineer._estimate_distance` (ml/feature_engineering.py, lines
151-181): empty text gives 500 (`if not location`); otherwise the first
city whose name is a substring of the lowercased location, else the first
state abbreviation that is a substring of it, else 300. -/
def estimate_distance (location : String) : ℚ :=
  if location = "" then 500
  else
    let location_lower := pyLower location
    match city_distances.find? (fun p => containsSub p.1 location_lower) with
    | some p => p.2
    | none =>
      match state_distances.find? (fun p => containsSub p.1 location_lower) with
      | some p => p.2
      | none => 300

/-- `df['description'].fillna('')`. -/
def fillnaStr (col : List Cell) : List Cell :=
  col.map (fun c => match c with | .na => .str "" | c => c)

/-- `df['title'] + ' ' + df['description'].fillna('')`: string
concatenation; a NaN title makes the combined cell NaN. -/
def combineTitleDesc (t d : Cell) : Cell :=
  match t, d with
  | .str ts, .str ds => .str (ts ++ " " ++ ds)
  | _, _ => .na

/-- `series.str.contains(p1|...|pn, case=False, na=False).astype(int)` for
an alternation of literal patterns. -/
def containsAnyFlag (pats : List String) (c : Cell) : Cell :=
  match c with
  | .str s => .num (if pats.any (fun p => containsSub p (pyLower s)) then 1 else 0)
  | _ => .num 0

/-- `series.str.contains(\bw\b, case=False, na=False).astype(int)` for a
literal word with boundaries. -/
def containsWordFlag (w : String) (c : Cell) : Cell :=
  match c with
  | .str s => .num (if containsWord w (pyLower s) then 1 else 0)
  | _ => .num 0

/-- `FeatureEngineer._create_text_features` (lines 33-48). -/
def create_text_features (df : DF) : DF :=
  let title := df.col "title"
  let desc := df.col "description"
  let df := df.setCol "title_length" (title.map (fun c => match c with
    | .str s => Cell.num (s.data.length : ℚ)
    | _ => .na))
  let df := df.setCol "title_word_count" (title.map (fun c => match c with
    | .str s => Cell.num ((pyWords s).length : ℚ)
    | _ => .na))
  let df := df.setCol "description_length" ((fillnaStr desc).map (fun c => match c with
    | .str s => Cell.num (s.data.length : ℚ)
    | _ => .na))
  let df := df.setCol "description_word_count" ((fillnaStr desc).map (fun c => match c with
    | .str s => Cell.num ((pyWords s).length : ℚ)
    | _ => .na))
  let df := df.setCol "has_description" ((df.col "description_length").map (fun c =>
    match c.fnum with
    | some v => Cell.num (if 0 < v then 1 else 0)
    | none => .num 0))
  let df := df.setCol "title_caps_ratio" (title.map (fun c => match c with
    | .str s => Cell.num (caps_ratio s)
    | _ => .na))
  let df := df.setCol "description_caps_ratio" ((fillnaStr desc).map (fun c => match c with
    | .str s => Cell.num (caps_ratio s)
    | _ => .na))
  let df := df.setCol "has_part_number" (title.map (fun c => match c with
    | .str s => Cell.num (if hasDigitRun4 (pyLower s) then 1 else 0)
    | _ => .num 0))
  let df := df.setCol "has_year" (title.map (fun c => match c with
    | .str s => Cell.num (if hasYearPattern (pyLower s) then 1 else 0)
    | _ => .num 0))
  df.setCol "has_mileage" (title.map (fun c => match c with
    | .str s => Cell.num (if hasMileagePattern (pyLower s) then 1 else 0)
    | _ => .num 0))

/-- `FeatureEngineer._create_condition_features` (lines 50-71). -/
def create_condition_features (libs : PyLibs) (df : DF) : DF :=
  let parsed := (df.col "condition_keywords").map (fun c => match c with
    | .str s => Cell.strList (libs.jsonLoads s)
    | .strList l => Cell.strList l
    | _ => Cell.strList [])
  let df := df.setCol "condition_keywords_parsed" parsed
  let df := df.setCol "good_condition_count" (parsed.map (fun c => match c with
    | .strList l => Cell.num ((l.countP (fun k => k.startsWith "good_")) : ℚ)
    | _ => .na))
  let df := df.setCol "bad_condition_count" (parsed.map (fun c => match c with
    | .strList l => Cell.num ((l.countP (fun k => k.startsWith "bad_")) : ℚ)
    | _ => .na))
  let df := df.setCol "condition_score"
    (List.zipWith (cellOp2 (· - ·))
      (df.col "good_condition_count") (df.col "bad_condition_count"))
  let text_combined :=
    List.zipWith combineTitleDesc (df.col "title") (fillnaStr (df.col "description"))
  let df := df.setCol "is_rebuilt"
    (text_combined.map (containsAnyFlag ["rebuilt", "remanufactured"]))
  let df := df.setCol "is_new" (text_combined.map (containsWordFlag "new"))
  let df := df.setCol "needs_work"
    (text_combined.map (containsAnyFlag ["needs work", "for parts", "repair"]))
  df.setCol "low_miles"
    (text_combined.map (containsAnyFlag ["low miles", "zero miles"]))

/-- `FeatureEngineer._create_location_features` (lines 73-82).  The
distance is computed by `.apply(self._estimate_distance)`; a NULL location
(Python `None`) is falsy there and yields 500. -/
def create_location_features (df : DF) : DF :=
  let loc := df.col "location"
  let estd := loc.map (fun c => match c with
    | .str s => Cell.num (estimate_distance s)
    | _ => Cell.num 500)
  let df := df.setCol "estimated_distance" estd
  let df := df.setCol "is_local" (estd.map (fun c => match c.fnum with
    | some d => Cell.num (if d < 100 then 1 else 0)
    | none => .num 0))
  let df := df.setCol "is_regional" (estd.map (fun c => match c.fnum with
    | some d => Cell.num (if d < 300 then 1 else 0)
    | none => .num 0))
  let df := df.setCol "has_specific_location" (loc.map (fun c => match c with
    | .str s => Cell.boolean (decide (5 < s.data.length))
    | _ => Cell.boolean false))
  df.setCol "location_word_count" (loc.map (fun c => match c with
    | .str s => Cell.num ((pyWords s).length : ℚ)
    | _ => .na))

/-- First-seen-order deduplication, as `Series.unique()` returns values. -/
def firstSeen : List String → List String
  | [] => []
  | s :: rest => s :: (firstSeen rest).filter (fun t => t ≠ s)

/-- The `platform_scores` dict of `_create_platform_features`. -/
def platform_scores : List (String × ℚ) :=
  [("ebay", 4/5), ("craigslist", 3/5), ("facebook", 7/10), ("offerup", 3/5)]

/-- `FeatureEngineer._create_platform_features` (lines 84-98): one 0/1
indicator column per platform value observed in the batch, plus
`platform_reliability` = `platform.map(platform_scores).fillna(0.5)`. -/
def create_platform_features (df : DF) : DF :=
  let plat := df.col "platform"
  let platforms := firstSeen (plat.filterMap (fun c => match c with
    | .str s => some s
    | _ => none))
  let df := platforms.foldl (fun df p =>
    df.setCol ("platform_" ++ p)
      (plat.map (fun c => Cell.num (if c = .str p then 1 else 0)))) df
  df.setCol "platform_reliability" (plat.map (fun c => match c with
    | .str s =>
      Cell.num (((platform_scores.find? (fun q => q.1 = s)).map Prod.snd).getD (1/2))
    | _ => Cell.num (1/2)))

/-- `FeatureEngineer._create_temporal_features` (lines 100-113). -/
def create_temporal_features (libs : PyLibs) (now : Ts) (df : DF) : DF :=
  let df := if df.hasCol "scraped_at" then df
            else df.setCol "scraped_at" (List.replicate df.nrows (Cell.time now))
  let scr := (df.col "scraped_at").map (fun c => match c with
    | .time t => Cell.time t
    | .str s => Cell.time (libs.parseTs s)
    | _ => Cell.na)
  let df := df.setCol "scraped_at" scr
  let df := df.setCol "hour_scraped" (scr.map (fun c => match c with
    | .time t => Cell.num (t.hour : ℚ)
    | _ => .na))
  let df := df.setCol "day_of_week" (scr.map (fun c => match c with
    | .time t => Cell.num (t.dayofweek : ℚ)
    | _ => .na))
  let df := df.setCol "is_weekend" ((df.col "day_of_week").map (fun c =>
    match c.fnum with
    | some v => Cell.num (if 5 ≤ v then 1 else 0)
    | none => .num 0))
  df.setCol "hours_since_scraped" (scr.map (fun c => match c with
    | .time t => Cell.num ((now.secs - t.secs) / 3600)
    | _ => .na))

/-- `FeatureEngineer._create_engine_features` (lines 115-143). -/
def create_engine_features (df : DF) : DF :=
  let text_combined :=
    List.zipWith combineTitleDesc (df.col "title") (fillnaStr (df.col "description"))
  let df := df.setCol "is_lq4" (text_combined.map (containsWordFlag "lq4"))
  let df := df.setCol "is_ls_engine" (text_combined.map (fun c => match c with
    | .str s => Cell.num (if hasLsPattern (pyLower s) then 1 else 0)
    | _ => .num 0))
  let df := df.setCol "is_vortec" (text_combined.map (containsAnyFlag ["vortec"]))
  let df := df.setCol "is_chevy"
    (text_combined.map (containsAnyFlag ["chevy", "chevrolet"]))
  let df := df.setCol "is_v8" (text_combined.map (containsWordFlag "v8"))
  let df := df.setCol "has_53_displacement"
    (text_combined.map (containsAnyFlag ["5.3", "5300"]))
  let df := df.setCol "has_60_displacement"
    (text_combined.map (containsAnyFlag ["6.0", "6000"]))
  let df := df.setCol "has_48_displacement"
    (text_combined.map (containsAnyFlag ["4.8", "4800"]))
  let df := df.setCol "is_complete_engine"
    (text_combined.map (containsAnyFlag ["complete engine", "long block"]))
  let df := df.setCol "is_short_block"
    (text_combined.map (containsAnyFlag ["short block"]))
  let df := df.setCol "is_heads"
    (text_combined.map (containsAnyFlag ["heads", "cylinder head"]))
  let df := df.setCol "is_intake" (text_combined.map (containsAnyFlag ["intake"]))
  let df := df.setCol "is_block" (text_combined.map (containsWordFlag "block"))
  df.setCol "lq4_priority_score"
    (List.zipWith (cellOp2 (· + ·))
      (List.zipWith (cellOp2 (· + ·))
        (List.zipWith (cellOp2 (· + ·))
          (List.zipWith (cellOp2 (· + ·))
            ((df.col "is_lq4").map (cellScale 3))
            ((df.col "is_ls_engine").map (cellScale 2)))
          (df.col "is_chevy"))
        (df.col "is_v8"))
      ((df.col "has_60_displacement").map (cellScale 2)))

/-- `FeatureEngineer.create_features` (ml/feature_engineering.py, lines
12-31): log-price (`np.log1p` of the 0-filled price) and price-per-word,
then the six feature families in source order. -/
def create_features (libs : PyLibs) (now : Ts) (df : DF) : DF :=
  let df := df.setCol "log_price" ((df.col "price").map (fun c => match c.fnum with
    | some v => Cell.num (libs.log1p v)
    | none => Cell.num (libs.log1p 0)))
  let df := df.setCol "price_per_word"
    (List.zipWith (fun pc tc =>
      match pc.fnum, tc with
      | some p, Cell.str s => Cell.num (p / (((pyWords s).length : ℚ) + 1))
      | _, _ => Cell.na) (df.col "price") (df.col "title"))
  let df := create_text_features df
  let df := create_condition_features libs df
  let df := create_location_features df
  let df := create_platform_features df
  let df := create_temporal_features libs now df
  create_engine_features df

/-! ## ml/model_training.py — DealScoreModel -/

/-- The numeric (non-NaN) values of a float series, in order
(`series.dropna()`). -/
def numsOf (cells : List Cell) : List ℚ := cells.filterMap Cell.fnum

/-- The test `prices.std() > 0` on a float series: the sample standard
deviation (ddof=1, NaN skipped) is positive iff at least two non-NaN
values exist and not all of them are equal; with fewer than two the std is
NaN and `NaN > 0` is False. -/
def stdPositive (prices : List Cell) : Bool :=
  let vals := numsOf prices
  decide (2 ≤ vals.length) && vals.any (fun v => decide (v ≠ vals.headD 0))

/-- `Series.rank(pct=True)` of one value within a float series: the
average rank (ties averaged) among the non-NaN values, divided by their
count. -/
def rankPct (vals : List ℚ) (v : ℚ) : ℚ :=
  (((vals.countP (fun w => decide (w < v))) : ℚ) +
    (((vals.countP (fun w => decide (w = v))) : ℚ) + 1) / 2) / ((vals.length : ℚ))

/-- The price cells of one platform group (`df.loc[mask, 'price']`), in
frame order. -/
def groupPrices (plat price : List Cell) (p : String) : List Cell :=
  ((plat.zip price).filter (fun rc => rc.1 = Cell.str p)).map Prod.snd

/-- One iteration of the platform loop of `_create_synthetic_labels`
(ml/model_training.py, lines 154-159): when the group holds more than one
price entry and their std is positive, each row of the group gets
`0.3 * (1 - rank_pct(price))` added to its deal score (pandas aligns the
group's `rank(pct=True)` back to the rows by index, so the update is
row-wise); a NaN price yields a NaN rank and a NaN score. -/
def addPriceTermFor (plat price : List Cell) (p : String) (ds : List Cell) :
    List Cell :=
  if decide (1 < (groupPrices plat price p).length) &&
      stdPositive (groupPrices plat price p) then
    (ds.zip (plat.zip price)).map (fun t =>
      if t.2.1 = Cell.str p then
        cellOp2 (· + ·) t.1
          (match t.2.2.fnum with
           | some v =>
             Cell.num (3/10 * (1 - rankPct (numsOf (groupPrices plat price p)) v))
           | none => Cell.na)
      else t.1)
  else ds

/-- `Series.min()`: minimum of the non-NaN values, none when all are NaN. -/
def colMin (cells : List Cell) : Option ℚ :=
  match numsOf cells with
  | [] => none
  | v :: vs => some (vs.foldl min v)

/-- `Series.max()`: maximum of the non-NaN values, none when all are NaN. -/
def colMax (cells : List Cell) : Option ℚ :=
  match numsOf cells with
  | [] => none
  | v :: vs => some (vs.foldl max v)

/-- `np.clip(x, lo, hi)`. -/
def qClip (x lo hi : ℚ) : ℚ := min (max x lo) hi

/-- The price-percentile section of `_create_synthetic_labels`, lines
153-159: when the price column exists with some numeric entry, loop over
the batch's platforms adding each group's percentile term. -/
def synthPriceStage (df : DF) (ds : List Cell) : List Cell :=
  if df.hasCol "price" && (df.col "price").any (fun c => c.fnum.isSome) then
    (firstSeen ((df.col "platform").filterMap (fun c => match c with
      | .str s => some s
      | _ => none))).foldl
        (fun ds p => addPriceTermFor (df.col "platform") (df.col "price") p ds)
        ds
  else ds

/-- Lines 161-164: `deal_score += 0.2 * condition_norm`. -/
def synthCondStage (df : DF) (ds : List Cell) : List Cell :=
  if df.hasCol "condition_score" then
    List.zipWith (fun d c =>
      cellOp2 (· + ·) d
        (match colMin (df.col "condition_score"),
          colMax (df.col "condition_score"), c.fnum with
         | some a, some b, some v =>
           Cell.num (1/5 * ((v - a) / (b - a + 1/100000000)))
         | _, _, _ => Cell.na)) ds (df.col "condition_score")
  else ds

/-- Lines 166-168: `deal_score += 0.3 * lq4_norm`. -/
def synthLq4Stage (df : DF) (ds : List Cell) : List Cell :=
  if df.hasCol "lq4_priority_score" then
    List.zipWith (fun d c =>
      cellOp2 (· + ·) d
        (match colMax (df.col "lq4_priority_score"), c.fnum with
         | some m, some v => Cell.num (3/10 * (v / (m + 1/100000000)))
         | _, _ => Cell.na)) ds (df.col "lq4_priority_score")
  else ds

/-- Lines 170-172: `deal_score -= clip(distance/1000, 0, 0.2)`. -/
def synthDistStage (df : DF) (ds : List Cell) : List Cell :=
  if df.hasCol "estimated_distance" then
    List.zipWith (fun d c =>
      cellOp2 (· - ·) d
        (match c.fnum with
         | some v => Cell.num (qClip (v / 1000) 0 (1/5))
         | none => Cell.na)) ds (df.col "estimated_distance")
  else ds

/-- Lines 174-175: `deal_score += 0.1 * platform_reliability`. -/
def synthRelStage (df : DF) (ds : List Cell) : List Cell :=
  if df.hasCol "platform_reliability" then
    List.zipWith (fun d c => cellOp2 (· + ·) d (cellScale (1/10) c))
      ds (df.col "platform_reliability")
  else ds

/-- Line 177: `deal_score = np.clip(deal_score, 0, 1)`. -/
def synthClipStage (ds : List Cell) : List Cell :=
  ds.map (fun c => match c.fnum with
    | some v => Cell.num (qClip v 0 1)
    | none => Cell.na)

/-- `DealScoreModel._create_synthetic_labels` (ml/model_training.py,
lines 147-179): `deal_score` starts at 0.5 and is adjusted by the five
guarded sections in source order, then clipped to [0,1]; NaN propagates
as in pandas. -/
def create_synthetic_labels (df : DF) : DF :=
  df.setCol "deal_score"
    (synthClipStage (synthRelStage df (synthDistStage df (synthLq4Stage df
      (synthCondStage df (synthPriceStage df
        (List.replicate df.nrows (Cell.num (1/2)))))))))

/-- Lines 23-26 of `prepare_training_data`: engineer features and derive
synthetic labels when no `deal_score` column exists. -/
def labeledFrame (libs : PyLibs) (now : Ts) (df : DF) : DF :=
  let df_features := create_features libs now df
  if df_features.hasCol "deal_score" then df_features
  else create_synthetic_labels df_features

/-- The columns `prepare_training_data` excludes from the feature set
(ml/model_training.py, lines 28-32). -/
def exclude_cols : List ColName :=
  ["id", "platform", "title", "description", "url", "seller_name",
   "scraped_at", "is_active", "deal_score", "is_hot_deal",
   "condition_keywords", "condition_keywords_parsed", "image_urls"]

/-- An `X.fillna(0)` matrix entry: NaN becomes 0 and booleans coerce to
0/1.  (String-valued cells — e.g. the not-excluded `location` column —
are mapped to 0 here; sklearn would reject a string column outright, and
no verified claim depends on a string feature's numeric value.) -/
def cellToNum (c : Cell) : ℚ :=
  match c with
  | .num q => q
  | .boolean b => if b then 1 else 0
  | _ => 0

/-- The label-validity mask of `prepare_training_data` (line 39):
`~y.isna() & (y >= 0) & (y <= 1)`. -/
def validLabel (c : Cell) : Bool :=
  match c.fnum with
  | some v => decide (0 ≤ v) && decide (v ≤ 1)
  | none => false

/-- The `(X, y)` selection plus the recorded feature-column list. -/
structure Prepared where
  featureCols : List ColName
  x : List (List ℚ)
  y : List ℚ
deriving DecidableEq

/-- `DealScoreModel.prepare_training_data` (ml/model_training.py, lines
21-45): label the engineered frame, keep every non-excluded column as a
feature, build the 0-filled matrix `X` and label vector `y`, restrict
both to rows whose label is a number in [0,1], and record the feature
columns. -/
def prepare_training_data (libs : PyLibs) (now : Ts) (df : DF) : Prepared :=
  let df_features := labeledFrame libs now df
  let feature_cols := df_features.cols.filter (fun c => !(exclude_cols.contains c))
  let y := df_features.col "deal_score"
  let n := df_features.nrows
  let rows := (List.range n).map (fun i =>
    feature_cols.map (fun c => cellToNum ((df_features.col c).getD i Cell.na)))
  let labels := (List.range n).map (fun i => y.getD i Cell.na)
  let mask := labels.map validLabel
  { featureCols := feature_cols
  , x := (rows.zip mask).filterMap (fun p => if p.2 then some p.1 else none)
  , y := (labels.zip mask).filterMap (fun p => if p.2 then p.1.fnum else none) }

/-- The procedural random draws feeding
`DealScoreModel._create_synthetic_training_data`: numpy's seeded sampling
is external numeric code, modelled as one value per sample index for each
feature of the `data` dict (distribution noted per field) plus the label
noise. -/
structure SynthDraws where
  price : ℕ → ℚ                 -- np.random.lognormal(7, 1)
  log_price : ℕ → ℚ             -- np.random.normal(7, 1)
  title_length : ℕ → ℚ          -- np.random.randint(20, 100)
  title_word_count : ℕ → ℚ      -- np.random.randint(3, 15)
  description_length : ℕ → ℚ    -- np.random.randint(0, 500)
  has_description : ℕ → ℚ       -- np.random.binomial(1, 0.7)
  good_condition_count : ℕ → ℚ  -- np.random.poisson(1)
  bad_condition_count : ℕ → ℚ   -- np.random.poisson(0.3)
  condition_score : ℕ → ℚ       -- np.random.normal(0, 2)
  is_rebuilt : ℕ → ℚ            -- np.random.binomial(1, 0.2)
  is_new : ℕ → ℚ                -- np.random.binomial(1, 0.1)
  needs_work : ℕ → ℚ            -- np.random.binomial(1, 0.15)
  estimated_distance : ℕ → ℚ    -- np.random.exponential(200)
  is_local : ℕ → ℚ              -- np.random.binomial(1, 0.3)
  platform_reliability : ℕ → ℚ  -- np.random.uniform(0.5, 0.9)
  is_lq4 : ℕ → ℚ                -- np.random.binomial(1, 0.3)
  is_ls_engine : ℕ → ℚ          -- np.random.binomial(1, 0.5)
  is_chevy : ℕ → ℚ              -- np.random.binomial(1, 0.6)
  is_v8 : ℕ → ℚ                 -- np.random.binomial(1, 0.7)
  lq4_priority_score : ℕ → ℚ    -- np.random.randint(0, 8)
  is_complete_engine : ℕ → ℚ    -- np.random.binomial(1, 0.4)
  noise : ℕ → ℚ                 -- np.random.normal(0, 0.1)

/-- The synthetic feature columns, in the `data` dict's order (these
become `self.feature_columns` on the fallback path). -/
def synthFeatureCols : List ColName :=
  ["price", "log_price", "title_length", "title_word_count",
   "description_length", "has_description", "good_condition_count",
   "bad_condition_count", "condition_score", "is_rebuilt", "is_new",
   "needs_work", "estimated_distance", "is_local", "platform_reliability",
   "is_lq4", "is_ls_engine", "is_chevy", "is_v8", "lq4_priority_score",
   "is_complete_engine"]

/-- One synthetic sample row, aligned with `synthFeatureCols`. -/
def synthRow (r : SynthDraws) (i : ℕ) : List ℚ :=
  [r.price i, r.log_price i, r.title_length i, r.title_word_count i,
   r.description_length i, r.has_description i, r.good_condition_count i,
   r.bad_condition_count i, r.condition_score i, r.is_rebuilt i,
   r.is_new i, r.needs_work i, r.estimated_distance i, r.is_local i,
   r.platform_reliability i, r.is_lq4 i, r.is_ls_engine i, r.is_chevy i,
   r.is_v8 i, r.lq4_priority_score i, r.is_complete_engine i]

/-- Minimum of a nonempty rational list (`series.min()`). -/
def listMin : List ℚ → ℚ
  | [] => 0
  | v :: vs => vs.foldl min v

/-- Maximum of a nonempty rational list (`series.max()`). -/
def listMax : List ℚ → ℚ
  | [] => 0
  | v :: vs => vs.foldl max v

/-- The formula-derived synthetic label (ml/model_training.py, lines
212-222): a price min-max term, clipped condition term, priority term,
rebuilt, reliability and distance terms, plus noise, clipped to [0,1].
(If all 1000 price draws were equal — a probability-zero event — numpy
would divide by zero; here rational division by zero gives 0.) -/
def synthLabel (r : SynthDraws) (i : ℕ) : ℚ :=
  let prices := (List.range 1000).map r.price
  let pmin := listMin prices
  let pmax := listMax prices
  qClip
    (3/10 * (1 - (r.price i - pmin) / (pmax - pmin)) +
      1/5 * qClip (r.condition_score i / 5) 0 1 +
      1/5 * (r.lq4_priority_score i / 8) +
      1/10 * r.is_rebuilt i +
      1/10 * r.platform_reliability i +
      1/10 * (1 - qClip (r.estimated_distance i / 1000) 0 1) +
      r.noise i) 0 1

/-- `DealScoreModel._create_synthetic_training_data` (ml/model_training.py,
lines 181-226): 1000 procedurally sampled rows over the 21 features and
the formula-derived noisy label; the column list is recorded as the
model's feature columns. -/
def create_synthetic_training_data (r : SynthDraws) : Prepared :=
  { featureCols := synthFeatureCols
  , x := (List.range 1000).map (synthRow r)
  , y := (List.range 1000).map (synthLabel r) }

/-- The training set finally used, and whether the fallback fired. -/
structure TrainSelect where
  data : Prepared
  usedSyntheticFallback : Bool
deriving DecidableEq

/-- The training-set selection of `DealScoreModel.train_model`
(ml/model_training.py, lines 47-58): prepare the data; when fewer than 10
rows survive the label-validity mask, replace the whole training set
(and the recorded feature columns) with the 1000-row synthetic set.  The
subsequent split/scale/fit is external numeric code (sklearn); it is
applied to whatever selection is returned here. -/
def train_model_select (libs : PyLibs) (now : Ts) (r : SynthDraws) (df : DF) :
    TrainSelect :=
  let p := prepare_training_data libs now df
  if p.x.length < 10 then ⟨create_synthetic_training_data r, true⟩
  else ⟨p, false⟩

/-- How `predict_deal_scores` can fail: the explicit
`ValueError("Model not trained yet...")` when model or scaler is missing,
or the pandas `KeyError` (naming the absent labels) raised by
`df_features[self.feature_columns]`. -/
inductive PredictError where
  | untrained
  | missingColumns (cols : List ColName)
deriving DecidableEq

/-- The mutable model state of a `DealScoreModel` instance: the fitted
regressor and fitted scaler as abstract row functions, plus the recorded
feature columns; all are `None` until trained or loaded. -/
structure DealModelState where
  model : Option (List ℚ → ℚ)
  scaler : Option (List ℚ → List ℚ)
  feature_columns : Option (List ColName)

/-- `df_features[self.feature_columns]`: list-based column selection.
pandas raises `KeyError` naming the requested labels that are absent; the
`.fillna(0)` applied afterwards fills NaN cells of selected columns — it
cannot supply a missing column. -/
def selectColumns (df : DF) (cols : List ColName) :
    Except (List ColName) (List (List Cell)) :=
  let missing := cols.filter (fun c => !(df.hasCol c))
  if missing.isEmpty then .ok (cols.map (fun c => df.col c))
  else .error missing

/-- `DealScoreModel.predict_deal_scores` (ml/model_training.py, lines
100-114): raise "Model not trained yet" iff model or scaler is missing;
engineer features; select exactly the recorded feature columns (KeyError
when one is absent); `fillna(0)`; scale with the fitted scaler; predict
with the fitted regressor; `np.clip(scores, 0, 1)`.  A state with model
and scaler but `feature_columns = None` would raise `KeyError(None)` at
the selection, represented by `missingColumns []`. -/
def predict_deal_scores (libs : PyLibs) (now : Ts) (st : DealModelState)
    (df : DF) : Except PredictError (List ℚ) :=
  match st.model, st.scaler with
  | some model, some scaler =>
    let df_features := create_features libs now df
    (match st.feature_columns with
     | none => .error (.missingColumns [])
     | some cols =>
       match selectColumns df_features cols with
       | .error missing => .error (.missingColumns missing)
       | .ok colVals =>
         let x := (List.range df_features.nrows).map (fun i =>
           colVals.map (fun col => cellToNum (col.getD i Cell.na)))
         let scores := (x.map scaler).map model
         .ok (scores.map (fun s => qClip s 0 1)))
  | _, _ => .error .untrained

/-! ## Derived views and concrete scenario objects -/

/-- The row-level price-percentile term the implementation computes: zero
for a row whose platform is not a string, whose group fails the
`len > 1 ∧ std > 0` guard, or when the price column has no numeric entry
at all; NaN for a NaN price inside an active group; otherwise
`0.3 * (1 - rank_pct)` within the row's platform group. -/
def rowPriceTerm (plat price : List Cell) (hasAnyPrice : Bool)
    (pl pr : Cell) : Cell :=
  match pl with
  | .str p =>
    let prices := groupPrices plat price p
    if hasAnyPrice && decide (1 < prices.length) && stdPositive prices then
      match pr.fnum with
      | some v => Cell.num (3/10 * (1 - rankPct (numsOf prices) v))
      | none => Cell.na
    else Cell.num 0
  | _ => Cell.num 0

/-- The row-level synthetic label the implementation computes: baseline
0.5, plus the row's price term, plus the guarded
condition/priority/distance/reliability terms, clipped to [0,1]. -/
def rowSyntheticLabel (df : DF) (i : ℕ) : Cell :=
  let plat := df.col "platform"
  let price := df.col "price"
  let hasAnyPrice := df.hasCol "price" && price.any (fun c => c.fnum.isSome)
  let s := cellOp2 (· + ·) (Cell.num (1/2))
    (rowPriceTerm plat price hasAnyPrice (plat.getD i Cell.na)
      (price.getD i Cell.na))
  let s :=
    if df.hasCol "condition_score" then
      let cs := df.col "condition_score"
      cellOp2 (· + ·) s
        (match colMin cs, colMax cs, (cs.getD i Cell.na).fnum with
         | some a, some b, some v =>
           Cell.num (1/5 * ((v - a) / (b - a + 1/100000000)))
         | _, _, _ => Cell.na)
    else s
  let s :=
    if df.hasCol "lq4_priority_score" then
      let lq := df.col "lq4_priority_score"
      cellOp2 (· + ·) s
        (match colMax lq, (lq.getD i Cell.na).fnum with
         | some m, some v => Cell.num (3/10 * (v / (m + 1/100000000)))
         | _, _ => Cell.na)
    else s
  let s :=
    if df.hasCol "estimated_distance" then
      cellOp2 (· - ·) s
        (match ((df.col "estimated_distance").getD i Cell.na).fnum with
         | some v => Cell.num (qClip (v / 1000) 0 (1/5))
         | none => Cell.na)
    else s
  let s :=
    if df.hasCol "platform_reliability" then
      cellOp2 (· + ·) s
        (cellScale (1/10) ((df.col "platform_reliability").getD i Cell.na))
    else s
  match s.fnum with
  | some v => Cell.num (qClip v 0 1)
  | none => Cell.na

/-- Modelled from the claim's wording, for comparison (C9): the distance
resolved by an exact (whole-string, case-insensitive) city match, else a
state-abbreviation match, else the fixed default 300; empty location 500. -/
def claimEstimateDistance (location : String) : ℚ :=
  if location = "" then 500
  else
    let location_lower := pyLower location
    match city_distances.find? (fun p => p.1 = location_lower) with
    | some p => p.2
    | none =>
      match state_distances.find? (fun p => containsSub p.1 location_lower) with
      | some p => p.2
      | none => 300

/-- Modelled from the claim's wording, for comparison (C5): synthetic
label as baseline 0.5, plus 0.3 times (1 minus the within-platform price
percentile), plus 0.2 times the min-max-normalized condition score, plus
0.3 times the max-normalized priority score, minus a distance penalty
capped at 0.2, plus 0.1 times platform reliability, clipped to [0,1] —
with no degenerate-group guard and no 1e-8 denominator guards. -/
def claimSyntheticLabel (groupVals : List ℚ)
    (price conditionScore csMin csMax lq4 lq4Max dist rel : ℚ) : ℚ :=
  qClip
    (1/2 + 3/10 * (1 - rankPct groupVals price) +
      1/5 * ((conditionScore - csMin) / (csMax - csMin)) +
      3/10 * (lq4 / lq4Max) -
      min (dist / 1000) (1/5) +
      1/10 * rel) 0 1

/-- Modelled from the claim's wording, for comparison (C6): the number of
"usable" rows — label present and within [0,1] AND price present and
positive — of a labeled frame. -/
def claimUsableCount (df : DF) : ℕ :=
  (List.range df.nrows).countP (fun i =>
    validLabel ((df.col "deal_score").getD i Cell.na) &&
      (match ((df.col "price").getD i Cell.na).fnum with
       | some p => decide (0 < p)
       | none => false))

/-- The raw frame `pd.DataFrame(listings)` built from a list of scraper
listing dicts (one column per dict key). -/
def listingFrame (ls : List ListingData) : DF :=
  ⟨[("platform", ls.map (fun l => Cell.str l.platform)),
    ("title", ls.map (fun l => Cell.str l.title)),
    ("description", ls.map (fun l => Cell.str l.description)),
    ("price", ls.map (fun l => match l.price with
      | some p => Cell.num p
      | none => Cell.na)),
    ("location", ls.map (fun l => Cell.str l.location)),
    ("seller_name", ls.map (fun l => Cell.str l.seller_name)),
    ("url", ls.map (fun l => Cell.str l.url)),
    ("image_urls", ls.map (fun l => Cell.strList l.image_urls)),
    ("condition_keywords", ls.map (fun l => Cell.strList l.condition_keywords))]⟩

/-- A minimal listing dict for concrete batches. -/
def mkListing (platform title : String) (price : Option ℚ) : ListingData :=
  ⟨platform, title, "", price, "", "", "", [], []⟩

/-- A fixed timestamp for concrete scenarios. -/
def t0 : Ts := ⟨0, 0, 0⟩

/-- Concrete library functions for witnesses: `log1p` as the identity (its
values never matter to the verified claims), empty JSON arrays, a fixed
parse time. -/
def libs0 : PyLibs := ⟨fun q => q, fun _ => [], fun _ => t0⟩

/-- Two identical ebay listings at the same price. -/
def pairBatch : DF :=
  listingFrame [mkListing "ebay" "engine" (some 500),
                mkListing "ebay" "engine" (some 500)]

/-- Three ebay listings priced 500, 1000, 1500. -/
def tripleBatch : DF :=
  listingFrame [mkListing "ebay" "engine" (some 500),
                mkListing "ebay" "engine" (some 1000),
                mkListing "ebay" "engine" (some 1500)]

/-- A training batch covering two platforms. -/
def twoPlatformBatch : DF :=
  listingFrame [mkListing "ebay" "engine" (some 500),
                mkListing "craigslist" "engine" (some 800)]

/-- A prediction batch holding a single ebay listing. -/
def singleEbayBatch : DF :=
  listingFrame [mkListing "ebay" "engine" (some 500)]

/-- A training frame with ten rows, each carrying a valid label
(`deal_score = 0.5`) but no price. -/
def dfTenPriceless : DF :=
  ⟨[("platform", List.replicate 10 (Cell.str "ebay")),
    ("title", List.replicate 10 (Cell.str "engine")),
    ("description", List.replicate 10 (Cell.str "")),
    ("price", List.replicate 10 Cell.na),
    ("location", List.replicate 10 (Cell.str "")),
    ("condition_keywords", List.replicate 10 (Cell.strList [])),
    ("deal_score", List.replicate 10 (Cell.num (1/2)))]⟩

/-- The engineered three-listing frame of the C5 scenario. -/
def tripleFeat : DF := create_features libs0 t0 tripleBatch

/-- The engineered tied-price pair frame. -/
def pairFeat : DF := create_features libs0 t0 pairBatch

instance {ε α : Type} [DecidableEq ε] [DecidableEq α] :
    DecidableEq (Except ε α)
  | .error e, .error f =>
    if h : e = f then .isTrue (by rw [h])
    else .isFalse (fun hh => h (by simpa using hh))
  | .ok x, .ok y =>
    if h : x = y then .isTrue (by rw [h])
    else .isFalse (fun hh => h (by simpa using hh))
  | .error _, .ok _ => .isFalse (fun hh => Except.noConfusion hh)
  | .ok _, .error _ => .isFalse (fun hh => Except.noConfusion hh)

/-- The 0-filled numeric matrix of the recorded feature columns, in
recorded order: entry (i, j) is the i-th row's value in the j-th recorded
column, with NaN as 0. -/
def recordedMatrix (df : DF) (cols : List ColName) : List (List ℚ) :=
  (List.range df.nrows).map (fun i =>
    cols.map (fun c => cellToNum ((df.col c).getD i Cell.na)))

/-- The effect of one platform iteration of the synthetic-label price loop
on one row's deal score: when the group passes the `len > 1 ∧ std > 0`
guard, add `0.3 * (1 - rank_pct)` of the row's price; otherwise leave the
score unchanged. -/
def applyPriceIncr (plat price : List Cell) (p : String) (old pr : Cell) :
    Cell :=
  if decide (1 < (groupPrices plat price p).length) &&
      stdPositive (groupPrices plat price p) then
    cellOp2 (· + ·) old
      (match pr.fnum with
       | some v =>
         Cell.num (3/10 * (1 - rankPct (numsOf (groupPrices plat price p)) v))
       | none => Cell.na)
  else old

/-- The effect of the whole per-platform price-adjustment loop on a single
row: when any price is present, a string platform cell that occurs in the
platform column contributes one guarded increment to the base value. -/
def priceStep (plat price : List Cell) (b : Bool) (base pr pl : Cell) :
    Cell :=
  if b then
    match pl with
    | .str p =>
      if p ∈ firstSeen (plat.filterMap (fun c => match c with
          | .str s => some s
          | _ => none)) then
        applyPriceIncr plat price p base pr
      else base
    | _ => base
  else base

/-- A trained model state whose regressor always answers 5 (far above 1). -/
def st3 : DealModelState :=
  ⟨some (fun _ => 5), some (fun row => row), some ["log_price"]⟩

/-- Concrete all-zero random draws for witnesses. -/
def draws0 : SynthDraws :=
  ⟨fun _ => 0, fun _ => 0, fun _ => 0, fun _ => 0, fun _ => 0, fun _ => 0,
   fun _ => 0, fun _ => 0, fun _ => 0, fun _ => 0, fun _ => 0, fun _ => 0,
   fun _ => 0, fun _ => 0, fun _ => 0, fun _ => 0, fun _ => 0, fun _ => 0,
   fun _ => 0, fun _ => 0, fun _ => 0, fun _ => 0⟩

/-- The successful results of a scraper run list, in registration order. -/
def successfulResults (scrapers : List (String × ScrapeOutcome)) :
    List (List ListingData) :=
  scrapers.filterMap (fun s =>
    match s.2 with
    | .ok l => some l
    | .error _ => none)

/-- Modelled from the claim's wording, for comparison (C10): the
"labeled+priced listings" — training query rows that actually carry a
label. -/
def labeledPricedRows (db : ListingsDB) : List TrainQueryRow :=
  (get_listings_for_training db).filter (fun r => r.is_good_deal.isSome)

/-- The empty database right after `init_database`. -/
def emptyDB : ListingsDB := ⟨[], 1, [], []⟩

/-- A concrete listing. -/
def listingA : ListingData :=
  ⟨"ebay", "LS engine", "", some 500, "", "", "https://example.com/listing", [], []⟩

/-- A second listing with the same `url` as `listingA`. -/
def listingB : ListingData :=
  ⟨"craigslist", "6.0 LQ4 long block", "", some 700, "Brooklyn", "",
   "https://example.com/listing", [], []⟩

/-- A stored listing with a positive price and no deal score, with `url`
lengths distinguishing rows. -/
def priceOnlyListing (i : ℕ) : StoredListing :=
  { id := i + 1, platform := "ebay", title := "LS engine", description := "",
    price := some 500, location := "", seller_name := "",
    url := String.mk (List.replicate i 'x'), image_urls := [],
    condition_keywords := [], scraped_at := t0, is_active := true,
    deal_score := none, is_hot_deal := false }

/-- A database holding 60 positively priced listings, none labeled. -/
def dbSixtyUnlabeled : ListingsDB :=
  ⟨(List.range 60).map priceOnlyListing, 61, [], []⟩

/-- A database holding 40 positively priced listings, each with one label. -/
def dbFortyLabeled : ListingsDB :=
  ⟨(List.range 40).map priceOnlyListing, 41,
    (List.range 40).map (fun i => ⟨i + 1, i + 1, true, none⟩), []⟩

/-- A database holding 60 positively priced listings, each with one label. -/
def dbSixtyLabeled : ListingsDB :=
  ⟨(List.range 60).map priceOnlyListing, 61,
    (List.range 60).map (fun i => ⟨i + 1, i + 1, true, none⟩), []⟩

/-- A pre-existing artifact set. -/
def artInit : Artifacts := ⟨[]⟩

/-! ## Theorems for claim C4 -/

/-- Claim C4: the relevance predicate accepts exactly when the combined
lowercased text contains an engine-part term and no exclusion term; a
"boat motor" title (no other engine term) is rejected; "LS engine, needs
work" is accepted and its condition keywords include `bad_needs work`. -/
theorem relevance_filter_characterization :
    (∀ title description : String,
      is_relevant_listing title description = true ↔
        ((∃ t ∈ engineTerms,
            containsSub t (pyLower (title ++ " " ++ description)) = true) ∧
         (∀ e ∈ excludeTerms,
            containsSub e (pyLower (title ++ " " ++ description)) = false))) ∧
    is_relevant_listing "boat motor" "" = false ∧
    is_relevant_listing "LS engine, needs work" "" = true ∧
    "bad_needs work" ∈ extract_condition_keywords "LS engine, needs work" := by
  refine ⟨?_, by decide, by decide, by decide⟩
  intro title description
  unfold is_relevant_listing
  by_cases he : engineTerms.any
      (fun term => containsSub term (pyLower (title ++ " " ++ description))) = true
  · by_cases hx : excludeTerms.any
        (fun term => containsSub term (pyLower (title ++ " " ++ description))) = true
    · simp only [he, hx]
      simp only [List.any_eq_true] at he hx
      simp only [if_true, Bool.not_true, Bool.false_eq_true, if_false]
      constructor
      · intro h
        exact absurd h (by simp)
      · rintro ⟨-, hall⟩
        obtain ⟨e, hmem, hce⟩ := hx
        have := hall e hmem
        rw [this] at hce
        exact absurd hce (by simp)
    · simp only [he, if_true]
      have hx' : excludeTerms.any
          (fun term => containsSub term (pyLower (title ++ " " ++ description))) = false :=
        Bool.eq_false_iff.mpr hx
      simp only [hx', Bool.not_false, if_true, true_iff]
      refine ⟨by simpa [List.any_eq_true] using he, ?_⟩
      intro e hmem
      have := List.any_eq_false.mp hx' e hmem
      exact Bool.eq_false_iff.mpr this
  · have he' : engineTerms.any
        (fun term => containsSub term (pyLower (title ++ " " ++ description))) = false :=
      Bool.eq_false_iff.mpr he
    simp only [he', Bool.false_eq_true, if_false, false_iff]
    rintro ⟨⟨t, hmem, hct⟩, -⟩
    have := List.any_eq_false.mp he' t hmem
    rw [hct] at this
    exact absurd this (by simp)

/-! ## Theorems for claim C1 -/

/-- Claim C1, counterexample: inserting two listings with the same `url`
stores exactly one row and raises no error, but the second insert returns
the integer id `0` (`cursor.lastrowid` of a fresh connection after an
ignored `INSERT OR IGNORE`), not a null/absent id as the claim states. -/
theorem insert_duplicate_returns_zero_not_none :
    (insert_listing (insert_listing emptyDB t0 listingA).1 t0 listingB).2 = some 0 ∧
    ¬ (insert_listing (insert_listing emptyDB t0 listingA).1 t0 listingB).2 = none ∧
    (insert_listing (insert_listing emptyDB t0 listingA).1 t0 listingB).1.rows.length = 1 := by
  decide

/-- Claim C1, amended: for listings with identical `url` (url not yet
stored), inserting both stores exactly one row with that url; the first
insert returns the fresh id, the second is a no-op on the table and
returns the sentinel id `0` (falsy to callers, never a valid rowid —
rowids start at 1) rather than a null; no error is raised (the embedded
operation is total and the `IntegrityError` branch is unreachable under
`INSERT OR IGNORE`). -/
theorem insert_listing_dedup (db : ListingsDB) (now1 now2 : Ts)
    (l1 l2 : ListingData) (hurl : l1.url = l2.url)
    (hfresh : ∀ r ∈ db.rows, r.url ≠ l1.url) :
    ((insert_listing (insert_listing db now1 l1).1 now2 l2).1.rows.filter
        (fun r => r.url = l1.url)).length = 1 ∧
    (insert_listing db now1 l1).2 = some (db.nextId : ℤ) ∧
    (insert_listing (insert_listing db now1 l1).1 now2 l2).2 = some 0 ∧
    (insert_listing (insert_listing db now1 l1).1 now2 l2).1 =
      (insert_listing db now1 l1).1 := by
  have h1 : (db.rows.any fun r => decide (r.url = l1.url)) = false := by
    rw [List.any_eq_false]
    intro r hr
    simpa using hfresh r hr
  have h2 : (db.rows.any fun r => decide (r.url = l2.url)) = false := by
    rw [List.any_eq_false]
    intro r hr
    rw [← hurl]
    simpa using hfresh r hr
  have hf1 : db.rows.filter (fun r => decide (r.url = l1.url)) = [] := by
    rw [List.filter_eq_nil_iff]
    intro r hr
    simpa using hfresh r hr
  have hf2 : db.rows.filter (fun r => decide (r.url = l2.url)) = [] := by
    rw [List.filter_eq_nil_iff]
    intro r hr
    rw [← hurl]
    simpa using hfresh r hr
  refine ⟨?_, ?_, ?_, ?_⟩ <;>
    simp [insert_listing, storedOf, h1, h2, hf1, hf2, hurl,
      List.any_append, List.filter_append]

/-- Witness for `insert_listing_dedup` at a concrete database and listings. -/
theorem insert_listing_dedup_witness :
    ((insert_listing (insert_listing emptyDB t0 listingA).1 t0 listingB).1.rows.filter
        (fun r => r.url = listingA.url)).length = 1 ∧
    (insert_listing emptyDB t0 listingA).2 = some (emptyDB.nextId : ℤ) ∧
    (insert_listing (insert_listing emptyDB t0 listingA).1 t0 listingB).2 = some 0 ∧
    (insert_listing (insert_listing emptyDB t0 listingA).1 t0 listingB).1 =
      (insert_listing emptyDB t0 listingA).1 :=
  insert_listing_dedup emptyDB t0 t0 listingA listingB (by decide) (by decide)

/-! ## Theorems for claim C7 -/

theorem scrape_all_foldl_acc (scrapers : List (String × ScrapeOutcome))
    (acc : List ListingData) :
    scrapers.foldl
      (fun all_listings s =>
        match s.2 with
        | .ok listings => all_listings ++ listings
        | .error _ => all_listings)
      acc = acc ++ (successfulResults scrapers).flatten := by
  induction scrapers generalizing acc with
  | nil => simp [successfulResults]
  | cons s rest ih =>
    obtain ⟨name, outcome⟩ := s
    cases outcome with
    | ok l =>
      simp [successfulResults, ih, List.append_assoc]
    | error e =>
      simp [successfulResults, ih]

/-- Claim C7: `scrape_all_platforms` returns the concatenation of every
adapter's successful results in registration order, and an adapter that
raises contributes nothing while neither erasing the results accumulated
before it nor preventing the adapters after it from contributing; the
function is total, so no adapter exception propagates out of it. -/
theorem scrape_all_isolates_failures :
    (∀ scrapers : List (String × ScrapeOutcome),
      scrape_all_platforms scrapers = (successfulResults scrapers).flatten) ∧
    (∀ (pre post : List (String × ScrapeOutcome)) (name msg : String),
      scrape_all_platforms (pre ++ (name, Except.error msg) :: post) =
        scrape_all_platforms (pre ++ post)) := by
  constructor
  · intro scrapers
    unfold scrape_all_platforms
    simpa using scrape_all_foldl_acc scrapers []
  · intro pre post name msg
    unfold scrape_all_platforms
    rw [scrape_all_foldl_acc, scrape_all_foldl_acc]
    simp [successfulResults, List.filterMap_append]

/-! ## Theorems for claim C8 -/

/-- Claim C8: with both channels configured, each channel is attempted and
each outcome is logged as its own notification row carrying that channel's
own success flag — in particular a discord send returning `false` (the
interface's failure signal) is logged as `success=false` and the email
channel is still attempted; with one channel configured only that channel
is logged; the dispatcher is total, so it cannot abort the cycle. -/
theorem hot_deal_channels_logged_independently :
    ∀ (db : ListingsDB) (deal : HotDeal) (f g : HotDeal → Bool),
      (send_hot_deal_notifications ⟨some f, some g⟩ db deal).notifications =
        db.notifications ++
          [⟨deal.id, "discord", f deal⟩, ⟨deal.id, "email", g deal⟩] ∧
      (send_hot_deal_notifications ⟨some f, none⟩ db deal).notifications =
        db.notifications ++ [⟨deal.id, "discord", f deal⟩] ∧
      (send_hot_deal_notifications ⟨none, some g⟩ db deal).notifications =
        db.notifications ++ [⟨deal.id, "email", g deal⟩] ∧
      send_hot_deal_notifications ⟨none, none⟩ db deal = db := by
  intro db deal f g
  refine ⟨?_, ?_, ?_, ?_⟩ <;>
    simp [send_hot_deal_notifications, log_notification]

/-! ## Theorems for claim C10 -/

/-- Claim C10, counterexample: with 60 positively priced but unlabeled
listings stored, zero "labeled+priced" rows exist — fewer than 50, so the
claim says the job is a no-op — yet the retraining job retrains and
overwrites the artifacts, because the query's LEFT JOIN returns unlabeled
listings too and the 50-row floor is tested on all returned rows. -/
theorem retraining_counts_unlabeled_rows :
    (run_model_retraining dbSixtyUnlabeled none).2 = true ∧
    (run_model_retraining dbSixtyUnlabeled none).1 =
      some ⟨get_listings_for_training dbSixtyUnlabeled⟩ ∧
    (labeledPricedRows dbSixtyUnlabeled).length = 0 := by
  decide

/-- Claim C10, amended: the retraining job pulls every positively priced
listing left-joined with its training labels (one row per listing-label
pair, and unlabeled listings contribute a row with null label columns);
it retrains and overwrites the persisted artifacts exactly when at least
50 such rows come back, and otherwise leaves them unchanged.  In
particular 40 stored labeled+priced listings (40 rows) is a no-op and 60
(60 rows) retrains and overwrites. -/
theorem retraining_fifty_row_floor :
    (∀ (db : ListingsDB) (art : Option Artifacts),
      (run_model_retraining db art).2 = true ↔
        50 ≤ (get_listings_for_training db).length) ∧
    (∀ (db : ListingsDB) (art : Option Artifacts),
      (run_model_retraining db art).2 = false →
        (run_model_retraining db art).1 = art) ∧
    (∀ (db : ListingsDB) (art : Option Artifacts),
      (run_model_retraining db art).2 = true →
        (run_model_retraining db art).1 =
          some ⟨get_listings_for_training db⟩) ∧
    (∀ (db : ListingsDB) (l : StoredListing), l ∈ db.rows →
      (∀ t ∈ db.labels, t.listing_id ≠ l.id) →
      ∀ p : ℚ, l.price = some p → 0 < p →
        (⟨l, none, none⟩ : TrainQueryRow) ∈ get_listings_for_training db) ∧
    ((run_model_retraining dbFortyLabeled (some artInit)).2 = false ∧
      (run_model_retraining dbFortyLabeled (some artInit)).1 = some artInit) ∧
    ((run_model_retraining dbSixtyLabeled (some artInit)).2 = true ∧
      (run_model_retraining dbSixtyLabeled (some artInit)).1 =
        some ⟨get_listings_for_training dbSixtyLabeled⟩) := by
  refine ⟨?_, ?_, ?_, ?_, by decide, by decide⟩
  · intro db art
    unfold run_model_retraining
    by_cases h : (get_listings_for_training db).length < 50
    · simp [h]
    · simp [h]
      omega
  · intro db art h
    unfold run_model_retraining at h ⊢
    by_cases hl : (get_listings_for_training db).length < 50
    · simp [hl]
    · simp [hl] at h
  · intro db art h
    unfold run_model_retraining at h ⊢
    by_cases hl : (get_listings_for_training db).length < 50
    · simp [hl] at h
    · simp [hl]
  · intro db l hmem hnolabel p hp hpos
    unfold get_listings_for_training
    rw [List.mem_flatMap]
    refine ⟨l, ?_, ?_⟩
    · rw [List.mem_filter]
      exact ⟨hmem, by rw [hp]; simpa using hpos⟩
    · have : db.labels.filter (fun t => t.listing_id = l.id) = [] := by
        rw [List.filter_eq_nil_iff]
        intro t ht
        simpa using hnolabel t ht
      rw [this]
      simp

/-- Witness for `retraining_fifty_row_floor`: the no-op branch at the
concrete 40-row database leaves the artifacts unchanged. -/
theorem retraining_fifty_row_floor_witness :
    (run_model_retraining dbFortyLabeled (some artInit)).1 = some artInit :=
  retraining_fifty_row_floor.2.1 dbFortyLabeled (some artInit) (by decide)

/-! ## DataFrame lemmas -/

theorem DF.hasCol_iff (df : DF) (c : ColName) :
    df.hasCol c = true ↔ c ∈ df.columns.map Prod.fst := by
  unfold DF.hasCol DF.cols
  simp [List.contains_iff_exists_mem_beq]

theorem find?_setCol_map (cols : List (ColName × List Cell)) (c : ColName)
    (v : List Cell) (h : c ∈ cols.map Prod.fst) :
    (cols.map (fun p => if p.1 = c then (c, v) else p)).find?
      (fun p => p.1 = c) = some (c, v) := by
  induction cols with
  | nil => simp at h
  | cons p rest ih =>
    by_cases hp : p.1 = c
    · simp [hp]
    · rw [List.map_cons, if_neg hp,
        List.find?_cons_of_neg _ (by simpa using hp)]
      apply ih
      simp only [List.map_cons, List.mem_cons] at h
      rcases h with h | h
      · exact absurd h.symm hp
      · exact h

theorem find?_none_of_not_mem (cols : List (ColName × List Cell))
    (c : ColName) (h : c ∉ cols.map Prod.fst) :
    cols.find? (fun p => p.1 = c) = none := by
  rw [List.find?_eq_none]
  intro p hp
  simp only [decide_eq_true_eq]
  intro hc
  exact h (List.mem_map.mpr ⟨p, hp, hc⟩)

theorem DF.col_setCol_self (df : DF) (c : ColName) (v : List Cell) :
    (df.setCol c v).col c = v := by
  unfold DF.setCol
  by_cases h : df.hasCol c
  · rw [if_pos h]
    unfold DF.col
    rw [find?_setCol_map _ _ _ ((DF.hasCol_iff df c).mp h)]
    rfl
  · rw [if_neg h]
    unfold DF.col
    rw [List.find?_append,
      find?_none_of_not_mem _ _ (fun hm => h ((DF.hasCol_iff df c).mpr hm))]
    simp

theorem DF.col_setCol_other (df : DF) (c d : ColName) (v : List Cell)
    (h : c ≠ d) : (df.setCol d v).col c = df.col c := by
  unfold DF.setCol
  by_cases hd : df.hasCol d
  · rw [if_pos hd]
    unfold DF.col
    congr 1
    congr 1
    induction df.columns with
    | nil => rfl
    | cons p rest ih =>
      by_cases hp : p.1 = d
      · have hpc : ¬ (p.1 = c) := by rw [hp]; exact fun hh => h hh.symm
        rw [List.map_cons, if_pos hp,
          List.find?_cons_of_neg _ (by simpa using fun hh => h hh.symm),
          List.find?_cons_of_neg _ (by simpa using hpc)]
        exact ih
      · rw [List.map_cons, if_neg hp]
        by_cases hpc : p.1 = c
        · rw [List.find?_cons_of_pos _ (by simpa using hpc),
            List.find?_cons_of_pos _ (by simpa using hpc)]
        · rw [List.find?_cons_of_neg _ (by simpa using hpc),
            List.find?_cons_of_neg _ (by simpa using hpc)]
          exact ih
  · rw [if_neg hd]
    unfold DF.col
    rw [List.find?_append]
    have hsingle : [(d, v)].find? (fun p => p.1 = c) = none := by
      rw [List.find?_cons_of_neg _ (by simpa using Ne.symm h), List.find?_nil]
    rw [hsingle]
    simp

theorem DF.col_length_of_wf (df : DF) (c : ColName) (hwf : df.wf = true)
    (hc : df.hasCol c = true) : (df.col c).length = df.nrows := by
  have hmem := (DF.hasCol_iff df c).mp hc
  obtain ⟨p, hp, hpc⟩ := List.mem_map.mp hmem
  have hfind : ∃ q, df.columns.find? (fun p => p.1 = c) = some q := by
    have : (df.columns.find? (fun p => p.1 = c)).isSome := by
      rw [List.find?_isSome]
      exact ⟨p, hp, by simpa using hpc⟩
    exact Option.isSome_iff_exists.mp this
  obtain ⟨q, hq⟩ := hfind
  have hqmem := List.mem_of_find?_eq_some hq
  unfold DF.col
  rw [hq]
  unfold DF.wf at hwf
  rw [List.all_eq_true] at hwf
  simpa using hwf q hqmem

/-! ## Theorems for claim C9 -/

/-- Claim C9, counterexample: the city tier is a substring match, not an
exact match — "Brooklyn Heights" is not a table entry, yet the code
resolves it to 10 miles because "brooklyn" occurs inside it, while the
claimed exact-city/state/default tiers resolve it to the 300-mile
default. -/
theorem estimate_distance_substring_not_exact :
    estimate_distance "Brooklyn Heights" = 10 ∧
    claimEstimateDistance "Brooklyn Heights" = 300 ∧
    ¬ ((10 : ℚ) = 300) := by
  decide

/-- Claim C9, amended: the distance estimate falls through three tiers —
the first city-table entry whose name occurs as a substring of the
lowercased location, else the first state abbreviation occurring as a
substring, else the 300-mile default — with an empty location resolved to
500 miles before any lookup; and the derived flags are exactly
`is_local = (distance < 100)` and `is_regional = (distance < 300)` as 0/1
columns. -/
theorem estimate_distance_tiers :
    (estimate_distance "" = 500) ∧
    (∀ loc : String, loc ≠ "" →
      (∀ cd : String × ℚ,
        city_distances.find? (fun p => containsSub p.1 (pyLower loc)) = some cd →
        estimate_distance loc = cd.2) ∧
      (city_distances.find? (fun p => containsSub p.1 (pyLower loc)) = none →
        (∀ sd : String × ℚ,
          state_distances.find? (fun p => containsSub p.1 (pyLower loc)) = some sd →
          estimate_distance loc = sd.2) ∧
        (state_distances.find? (fun p => containsSub p.1 (pyLower loc)) = none →
          estimate_distance loc = 300))) ∧
    (∀ df : DF,
      (create_location_features df).col "is_local" =
        ((create_location_features df).col "estimated_distance").map
          (fun c => match c.fnum with
            | some d => Cell.num (if d < 100 then 1 else 0)
            | none => Cell.num 0)) ∧
    (∀ df : DF,
      (create_location_features df).col "is_regional" =
        ((create_location_features df).col "estimated_distance").map
          (fun c => match c.fnum with
            | some d => Cell.num (if d < 300 then 1 else 0)
            | none => Cell.num 0)) := by
  refine ⟨by decide, ?_, ?_, ?_⟩
  · intro loc hloc
    constructor
    · intro cd hcd
      simp only [estimate_distance, if_neg hloc, hcd]
    · intro hcity
      constructor
      · intro sd hsd
        simp only [estimate_distance, if_neg hloc, hcity, hsd]
      · intro hstate
        simp only [estimate_distance, if_neg hloc, hcity, hstate]
  · intro df
    unfold create_location_features
    simp +decide [DF.col_setCol_self, DF.col_setCol_other, List.map_map]
  · intro df
    unfold create_location_features
    simp +decide [DF.col_setCol_self, DF.col_setCol_other, List.map_map]

/-- Witness for `estimate_distance_tiers`: the city tier resolves
"Boston MA" to 215 miles. -/
theorem estimate_distance_tiers_witness :
    estimate_distance "Boston MA" = (("boston", (215 : ℚ)) : String × ℚ).2 :=
  (estimate_distance_tiers.2.1 "Boston MA" (by decide)).1
    ("boston", (215 : ℚ)) (by decide)

/-! ## Theorems for claim C2 -/

/-- Claim C2, counterexample: a model trained on a two-platform batch
records the indicator column `platform_craigslist`; predicting an
all-ebay batch engineers no such column, and the selection
`df_features[self.feature_columns]` then raises a KeyError naming it —
the missing recorded column is not treated as 0 and prediction does not
succeed. -/
theorem predict_missing_column_keyerror :
    "platform_craigslist" ∈ (prepare_training_data libs0 t0 twoPlatformBatch).featureCols ∧
    (create_features libs0 t0 singleEbayBatch).hasCol "platform_craigslist" = false ∧
    predict_deal_scores libs0 t0
      ⟨some (fun _ => 1), some (fun row => row),
        some (prepare_training_data libs0 t0 twoPlatformBatch).featureCols⟩
      singleEbayBatch =
      .error (.missingColumns ["platform_craigslist"]) := by
  set_option maxHeartbeats 4000000 in decide

theorem recordedMatrix_eq (df : DF) (cols : List ColName) :
    (List.range df.nrows).map (fun i =>
      (cols.map (fun c => df.col c)).map
        (fun col => cellToNum (col.getD i Cell.na))) =
      recordedMatrix df cols := by
  unfold recordedMatrix
  simp only [List.map_map]
  rfl

/-- Claim C2, amended: with a model and scaler loaded, predict selects
exactly the feature columns recorded at training time, in recorded order,
and NaN entries inside those columns are treated as 0 (the `fillna(0)`
matrix); but this works only when every recorded column is present among
the engineered columns — when one is absent, the column selection fails
with a KeyError instead of zero-filling it. -/
theorem predict_selects_recorded_columns
    (libs : PyLibs) (now : Ts) (model : List ℚ → ℚ)
    (scaler : List ℚ → List ℚ) (cols : List ColName) (df : DF) :
    (cols.all (fun c => (create_features libs now df).hasCol c) = true →
      predict_deal_scores libs now ⟨some model, some scaler, some cols⟩ df =
        .ok ((((recordedMatrix (create_features libs now df) cols).map
          scaler).map model).map (fun s => qClip s 0 1))) ∧
    (cols.all (fun c => (create_features libs now df).hasCol c) = false →
      ∃ missing, missing ≠ [] ∧
        predict_deal_scores libs now ⟨some model, some scaler, some cols⟩ df =
          .error (.missingColumns missing)) := by
  constructor
  · intro hall
    have hmiss : cols.filter
        (fun c => !((create_features libs now df).hasCol c)) = [] := by
      rw [List.filter_eq_nil_iff]
      intro c hc
      rw [List.all_eq_true] at hall
      simp [hall c hc]
    have hsel : selectColumns (create_features libs now df) cols =
        .ok (cols.map (fun c => (create_features libs now df).col c)) := by
      simp only [selectColumns]
      rw [hmiss]
      rfl
    simp only [predict_deal_scores, hsel]
    rw [recordedMatrix_eq]
  · intro hall
    have hmiss : cols.filter
        (fun c => !((create_features libs now df).hasCol c)) ≠ [] := by
      intro hnil
      rw [List.filter_eq_nil_iff] at hnil
      have : cols.all (fun c => (create_features libs now df).hasCol c) = true := by
        rw [List.all_eq_true]
        intro c hc
        have := hnil c hc
        simpa using this
      rw [this] at hall
      exact absurd hall (by simp)
    refine ⟨cols.filter (fun c => !((create_features libs now df).hasCol c)),
      hmiss, ?_⟩
    have hne : ((cols.filter
        (fun c => !((create_features libs now df).hasCol c))).isEmpty) ≠ true :=
      fun h => hmiss (List.isEmpty_iff.mp h)
    have hsel : selectColumns (create_features libs now df) cols =
        .error (cols.filter
          (fun c => !((create_features libs now df).hasCol c))) := by
      simp only [selectColumns]
      rw [if_neg hne]
    simp only [predict_deal_scores, hsel]

/-- Witness for `predict_selects_recorded_columns`: predicting with the
single recorded column `log_price`, which the engineered frame has. -/
theorem predict_selects_recorded_columns_witness :
    predict_deal_scores libs0 t0
      ⟨some (fun _ => 1), some (fun row => row), some ["log_price"]⟩
      singleEbayBatch =
      .ok ((((recordedMatrix (create_features libs0 t0 singleEbayBatch)
        ["log_price"]).map (fun row => row)).map (fun _ => 1)).map
          (fun s => qClip s 0 1)) :=
  (predict_selects_recorded_columns libs0 t0 (fun _ => 1) (fun row => row)
    ["log_price"] singleEbayBatch).1 (by decide)

/-! ## Theorems for claim C3 -/

theorem qClip_unit_bounds (x : ℚ) : 0 ≤ qClip x 0 1 ∧ qClip x 0 1 ≤ 1 := by
  unfold qClip
  constructor
  · exact le_min (le_max_right x 0) zero_le_one
  · exact min_le_right _ _

/-- Claim C3: predict fails with the "untrained" error exactly when no
model or no scaler is loaded (its other failure mode, the missing-column
KeyError, is a different error), and every score it returns lies in
[0,1] no matter what the underlying regressor outputs, because of the
final `np.clip(scores, 0, 1)`. -/
theorem predict_untrained_iff_and_clipped :
    (∀ (libs : PyLibs) (now : Ts) (st : DealModelState) (df : DF),
      predict_deal_scores libs now st df = .error .untrained ↔
        (st.model = none ∨ st.scaler = none)) ∧
    (∀ (libs : PyLibs) (now : Ts) (st : DealModelState) (df : DF)
      (scores : List ℚ),
      predict_deal_scores libs now st df = .ok scores →
        ∀ s ∈ scores, 0 ≤ s ∧ s ≤ 1) := by
  constructor
  · intro libs now st df
    obtain ⟨m, sc, fc⟩ := st
    cases m with
    | none => simp [predict_deal_scores]
    | some model =>
      cases sc with
      | none => simp [predict_deal_scores]
      | some scaler =>
        simp only [predict_deal_scores]
        cases fc with
        | none => simp
        | some cols =>
          rcases hsel : selectColumns (create_features libs now df) cols with
            missing | colVals <;> simp [hsel]
  · intro libs now st df scores hok s hs
    obtain ⟨m, sc, fc⟩ := st
    cases m with
    | none => simp [predict_deal_scores] at hok
    | some model =>
      cases sc with
      | none => simp [predict_deal_scores] at hok
      | some scaler =>
        simp only [predict_deal_scores] at hok
        cases fc with
        | none => simp at hok
        | some cols =>
          rcases hsel : selectColumns (create_features libs now df) cols with
            missing | colVals
          · simp only [hsel] at hok
            simp at hok
          · simp only [hsel] at hok
            simp only [Except.ok.injEq] at hok
            subst hok
            obtain ⟨x, -, hx⟩ := List.mem_map.mp hs
            rw [← hx]
            exact qClip_unit_bounds x

/-- Witness for `predict_untrained_iff_and_clipped`: a regressor answering
a constant 5 still yields the clipped score 1. -/
theorem predict_untrained_iff_and_clipped_witness :
    predict_deal_scores libs0 t0 st3 singleEbayBatch = .ok [1] ∧
    (0 ≤ (1 : ℚ) ∧ (1 : ℚ) ≤ 1) :=
  ⟨by decide,
   predict_untrained_iff_and_clipped.2 libs0 t0 st3 singleEbayBatch [1]
     (by decide) 1 (by simp)⟩

/-! ## Theorems for claim C6 -/

theorem filterMap_zip_mask_length {α : Type} (as : List α) :
    ∀ bs : List Bool, bs.length = as.length →
      ((as.zip bs).filterMap
        (fun p => if p.2 then some p.1 else none)).length = bs.countP id := by
  induction as with
  | nil =>
    intro bs h
    rw [List.length_nil] at h
    rw [List.length_eq_zero] at h
    subst h
    rfl
  | cons a as ih =>
    intro bs h
    cases bs with
    | nil => simp at h
    | cons b bs =>
      cases b <;>
        simp [List.zip_cons_cons, List.filterMap_cons,
          ih bs (by simpa using h), List.countP_cons]

unseal Rat.add Rat.mul Rat.inv Rat.sub in
/-- Claim C6, counterexample: ten rows whose labels are all the valid 0.5
but whose prices are all absent have zero "usable" rows in the claim's
sense (label valid AND price present and positive), yet `train_model`
does not fall back to synthetic data — its 10-row floor counts only
label-valid rows and never checks the price. -/
theorem train_select_skips_price_check :
    (train_model_select libs0 t0 draws0 dfTenPriceless).usedSyntheticFallback =
      false ∧
    claimUsableCount (labeledFrame libs0 t0 dfTenPriceless) = 0 ∧
    ((0 : ℕ) < 10) := by
  set_option maxHeartbeats 4000000 in decide

/-- Claim C6, amended: `train_model` falls back to the synthetic training
set exactly when fewer than 10 rows survive the label-validity mask
(label present and within [0,1] — price positivity is enforced upstream
by the storage query, not here); the fallback set has 1000 rows with the
formula-derived label, so the set finally handed to the fitting code
always has at least 10 rows and training always proceeds to a fitted
model. -/
theorem train_select_fallback_floor :
    (∀ (libs : PyLibs) (now : Ts) (r : SynthDraws) (df : DF),
      (train_model_select libs now r df).usedSyntheticFallback = true ↔
        (prepare_training_data libs now df).x.length < 10) ∧
    (∀ (libs : PyLibs) (now : Ts) (r : SynthDraws) (df : DF),
      (train_model_select libs now r df).data.x.length =
        if (prepare_training_data libs now df).x.length < 10 then 1000
        else (prepare_training_data libs now df).x.length) ∧
    (∀ (libs : PyLibs) (now : Ts) (df : DF),
      (prepare_training_data libs now df).x.length =
        ((List.range (labeledFrame libs now df).nrows).map (fun i =>
          ((labeledFrame libs now df).col "deal_score").getD i Cell.na)).countP
            validLabel) ∧
    (∀ r : SynthDraws,
      (create_synthetic_training_data r).x.length = 1000 ∧
      (create_synthetic_training_data r).y =
        (List.range 1000).map (synthLabel r)) ∧
    (∀ (libs : PyLibs) (now : Ts) (r : SynthDraws) (df : DF),
      10 ≤ (train_model_select libs now r df).data.x.length) := by
  refine ⟨?_, ?_, ?_, ?_, ?_⟩
  · intro libs now r df
    unfold train_model_select
    by_cases h : (prepare_training_data libs now df).x.length < 10 <;> simp [h]
  · intro libs now r df
    unfold train_model_select
    by_cases h : (prepare_training_data libs now df).x.length < 10 <;>
      simp [h, create_synthetic_training_data]
  · intro libs now df
    simp only [prepare_training_data]
    rw [filterMap_zip_mask_length _ _ (by simp)]
    rw [List.countP_map]
    rfl
  · intro r
    constructor
    · simp [create_synthetic_training_data]
    · rfl
  · intro libs now r df
    unfold train_model_select
    by_cases h : (prepare_training_data libs now df).x.length < 10
    · simp [h, create_synthetic_training_data]
    · simp [h]
      omega

/-! ## Theorems for claim C5 -/

theorem getD_replicate_cell (x : Cell) :
    ∀ (n i : ℕ), i < n → (List.replicate n x).getD i Cell.na = x := by
  intro n
  induction n with
  | zero => intro i hi; omega
  | succ m ih =>
    intro i hi
    cases i with
    | zero => rfl
    | succ j =>
      rw [List.replicate_succ, List.getD_cons_succ]
      exact ih j (by omega)

theorem getD_map_cell (f : Cell → Cell) (a : List Cell) :
    ∀ i : ℕ, i < a.length →
      (a.map f).getD i Cell.na = f (a.getD i Cell.na) := by
  induction a with
  | nil => intro i hi; simp at hi
  | cons x xs ih =>
    intro i hi
    cases i with
    | zero => rfl
    | succ j =>
      rw [List.map_cons, List.getD_cons_succ, List.getD_cons_succ]
      exact ih j (by simpa using hi)

theorem getD_zipWith_cell (f : Cell → Cell → Cell) (a : List Cell) :
    ∀ (b : List Cell) (i : ℕ), b.length = a.length → i < a.length →
      (List.zipWith f a b).getD i Cell.na =
        f (a.getD i Cell.na) (b.getD i Cell.na) := by
  induction a with
  | nil => intro b i _ hi; simp at hi
  | cons x xs ih =>
    intro b i hb hi
    cases b with
    | nil => simp at hb
    | cons y ys =>
      cases i with
      | zero => rfl
      | succ j =>
        rw [List.zipWith_cons_cons, List.getD_cons_succ, List.getD_cons_succ,
          List.getD_cons_succ]
        exact ih ys j (by simpa using hb) (by simpa using hi)

theorem getD_map_zip3 (g : Cell × Cell × Cell → Cell) (a : List Cell) :
    ∀ (b c : List Cell) (i : ℕ), b.length = a.length → c.length = a.length →
      i < a.length →
      ((a.zip (b.zip c)).map g).getD i Cell.na =
        g (a.getD i Cell.na, b.getD i Cell.na, c.getD i Cell.na) := by
  induction a with
  | nil => intro b c i _ _ hi; simp at hi
  | cons x xs ih =>
    intro b c i hb hc hi
    cases b with
    | nil => simp at hb
    | cons y ys =>
      cases c with
      | nil => simp at hc
      | cons z zs =>
        cases i with
        | zero => rfl
        | succ j =>
          rw [List.zip_cons_cons, List.zip_cons_cons, List.map_cons,
            List.getD_cons_succ, List.getD_cons_succ, List.getD_cons_succ,
            List.getD_cons_succ]
          exact ih ys zs j (by simpa using hb) (by simpa using hc)
            (by simpa using hi)

theorem getD_mem_cell (l : List Cell) (i : ℕ) (h : i < l.length) :
    l.getD i Cell.na ∈ l := by
  rw [List.getD_eq_getElem?_getD, List.getElem?_eq_getElem h]
  exact List.getElem_mem h

theorem mem_firstSeen (a : String) : ∀ l : List String,
    a ∈ firstSeen l ↔ a ∈ l := by
  intro l
  induction l with
  | nil => simp [firstSeen]
  | cons s rest ih =>
    simp only [firstSeen, List.mem_cons, List.mem_filter, ih]
    by_cases h : a = s
    · simp [h]
    · simp [h]

theorem firstSeen_nodup : ∀ l : List String, (firstSeen l).Nodup := by
  intro l
  induction l with
  | nil => simp [firstSeen]
  | cons s rest ih =>
    simp only [firstSeen, List.nodup_cons]
    constructor
    · intro hmem
      rw [List.mem_filter] at hmem
      simp at hmem
    · exact ih.filter _

theorem addPriceTermFor_length (plat price : List Cell) (p : String)
    (ds : List Cell) (h1 : plat.length = ds.length)
    (h2 : price.length = ds.length) :
    (addPriceTermFor plat price p ds).length = ds.length := by
  unfold addPriceTermFor
  split
  · simp only [List.length_map, List.length_zip]
    omega
  · rfl

theorem addPriceTermFor_getD (plat price : List Cell) (p : String)
    (ds : List Cell) (i : ℕ) (h1 : plat.length = ds.length)
    (h2 : price.length = ds.length) (hi : i < ds.length) :
    (addPriceTermFor plat price p ds).getD i Cell.na =
      if plat.getD i Cell.na = Cell.str p then
        applyPriceIncr plat price p (ds.getD i Cell.na)
          (price.getD i Cell.na)
      else ds.getD i Cell.na := by
  unfold addPriceTermFor applyPriceIncr
  split
  next hg =>
    rw [getD_map_zip3 _ ds plat price i h1 h2 hi]
  next hg =>
    rw [ite_self]

theorem price_fold_length (plat price : List Cell) :
    ∀ (platforms : List String) (ds : List Cell),
      plat.length = ds.length → price.length = ds.length →
      (platforms.foldl (fun ds p => addPriceTermFor plat price p ds)
        ds).length = ds.length := by
  intro platforms
  induction platforms with
  | nil => intro ds _ _; rfl
  | cons q qs ih =>
    intro ds h1 h2
    simp only [List.foldl_cons]
    have hlen := addPriceTermFor_length plat price q ds h1 h2
    rw [ih (addPriceTermFor plat price q ds) (by omega) (by omega)]
    exact hlen

theorem price_fold_getD (plat price : List Cell) :
    ∀ (platforms : List String) (ds : List Cell) (i : ℕ),
      platforms.Nodup →
      plat.length = ds.length → price.length = ds.length → i < ds.length →
      (platforms.foldl (fun ds p => addPriceTermFor plat price p ds)
        ds).getD i Cell.na =
        (match plat.getD i Cell.na with
         | .str p =>
           if p ∈ platforms then
             applyPriceIncr plat price p (ds.getD i Cell.na)
               (price.getD i Cell.na)
           else ds.getD i Cell.na
         | _ => ds.getD i Cell.na) := by
  intro platforms
  induction platforms with
  | nil =>
    intro ds i _ _ _ _
    cases hpl : plat.getD i Cell.na <;> simp
  | cons q qs ih =>
    intro ds i hnd h1 h2 hi
    rw [List.nodup_cons] at hnd
    obtain ⟨hqnotin, hqs⟩ := hnd
    simp only [List.foldl_cons]
    have hlen := addPriceTermFor_length plat price q ds h1 h2
    rw [ih (addPriceTermFor plat price q ds) i hqs (by omega) (by omega)
      (by omega)]
    rw [addPriceTermFor_getD plat price q ds i h1 h2 hi]
    cases hpl : plat.getD i Cell.na with
    | str p =>
      by_cases hpq : p = q
      · subst hpq
        simp [hqnotin]
      · simp [hpq, Ne.symm hpq, List.mem_cons]
    | na => simp
    | num v => simp
    | strList l => simp
    | boolean b => simp
    | time t => simp

theorem synthPriceStage_length (df : DF) (ds : List Cell)
    (h1 : (df.col "platform").length = ds.length)
    (h2 : df.hasCol "price" = true → (df.col "price").length = ds.length) :
    (synthPriceStage df ds).length = ds.length := by
  unfold synthPriceStage
  split
  next hg =>
    exact price_fold_length _ _ _ ds h1 (h2 (by simp only [Bool.and_eq_true] at hg; exact hg.1))
  next => rfl

theorem synthPriceStage_getD (df : DF) (ds : List Cell) (i : ℕ)
    (h1 : (df.col "platform").length = ds.length)
    (h2 : df.hasCol "price" = true → (df.col "price").length = ds.length)
    (hi : i < ds.length) :
    (synthPriceStage df ds).getD i Cell.na =
      priceStep (df.col "platform") (df.col "price")
        (df.hasCol "price" && ((df.col "price").any fun c => c.fnum.isSome))
        (ds.getD i Cell.na) ((df.col "price").getD i Cell.na)
        ((df.col "platform").getD i Cell.na) := by
  unfold synthPriceStage priceStep
  split
  next hg =>
    exact price_fold_getD _ _ _ ds i (firstSeen_nodup _) h1
      (h2 (by simp only [Bool.and_eq_true] at hg; exact hg.1)) hi
  next => rfl

theorem synthCondStage_length (df : DF) (ds : List Cell)
    (h : df.hasCol "condition_score" = true →
      (df.col "condition_score").length = ds.length) :
    (synthCondStage df ds).length = ds.length := by
  unfold synthCondStage
  split
  next hc => rw [List.length_zipWith, h hc, min_self]
  next => rfl

theorem synthCondStage_getD (df : DF) (ds : List Cell) (i : ℕ)
    (h : df.hasCol "condition_score" = true →
      (df.col "condition_score").length = ds.length)
    (hi : i < ds.length) :
    (synthCondStage df ds).getD i Cell.na =
      if df.hasCol "condition_score" then
        cellOp2 (· + ·) (ds.getD i Cell.na)
          (match colMin (df.col "condition_score"),
            colMax (df.col "condition_score"),
            ((df.col "condition_score").getD i Cell.na).fnum with
           | some a, some b, some v =>
             Cell.num (1/5 * ((v - a) / (b - a + 1/100000000)))
           | _, _, _ => Cell.na)
      else ds.getD i Cell.na := by
  unfold synthCondStage
  split
  next hc => rw [getD_zipWith_cell _ ds _ i (h hc) hi]
  next => rfl

theorem synthLq4Stage_length (df : DF) (ds : List Cell)
    (h : df.hasCol "lq4_priority_score" = true →
      (df.col "lq4_priority_score").length = ds.length) :
    (synthLq4Stage df ds).length = ds.length := by
  unfold synthLq4Stage
  split
  next hc => rw [List.length_zipWith, h hc, min_self]
  next => rfl

theorem synthLq4Stage_getD (df : DF) (ds : List Cell) (i : ℕ)
    (h : df.hasCol "lq4_priority_score" = true →
      (df.col "lq4_priority_score").length = ds.length)
    (hi : i < ds.length) :
    (synthLq4Stage df ds).getD i Cell.na =
      if df.hasCol "lq4_priority_score" then
        cellOp2 (· + ·) (ds.getD i Cell.na)
          (match colMax (df.col "lq4_priority_score"),
            ((df.col "lq4_priority_score").getD i Cell.na).fnum with
           | some m, some v => Cell.num (3/10 * (v / (m + 1/100000000)))
           | _, _ => Cell.na)
      else ds.getD i Cell.na := by
  unfold synthLq4Stage
  split
  next hc => rw [getD_zipWith_cell _ ds _ i (h hc) hi]
  next => rfl

theorem synthDistStage_length (df : DF) (ds : List Cell)
    (h : df.hasCol "estimated_distance" = true →
      (df.col "estimated_distance").length = ds.length) :
    (synthDistStage df ds).length = ds.length := by
  unfold synthDistStage
  split
  next hc => rw [List.length_zipWith, h hc, min_self]
  next => rfl

theorem synthDistStage_getD (df : DF) (ds : List Cell) (i : ℕ)
    (h : df.hasCol "estimated_distance" = true →
      (df.col "estimated_distance").length = ds.length)
    (hi : i < ds.length) :
    (synthDistStage df ds).getD i Cell.na =
      if df.hasCol "estimated_distance" then
        cellOp2 (· - ·) (ds.getD i Cell.na)
          (match ((df.col "estimated_distance").getD i Cell.na).fnum with
           | some v => Cell.num (qClip (v / 1000) 0 (1/5))
           | none => Cell.na)
      else ds.getD i Cell.na := by
  unfold synthDistStage
  split
  next hc => rw [getD_zipWith_cell _ ds _ i (h hc) hi]
  next => rfl

theorem synthRelStage_length (df : DF) (ds : List Cell)
    (h : df.hasCol "platform_reliability" = true →
      (df.col "platform_reliability").length = ds.length) :
    (synthRelStage df ds).length = ds.length := by
  unfold synthRelStage
  split
  next hc => rw [List.length_zipWith, h hc, min_self]
  next => rfl

theorem synthRelStage_getD (df : DF) (ds : List Cell) (i : ℕ)
    (h : df.hasCol "platform_reliability" = true →
      (df.col "platform_reliability").length = ds.length)
    (hi : i < ds.length) :
    (synthRelStage df ds).getD i Cell.na =
      if df.hasCol "platform_reliability" then
        cellOp2 (· + ·) (ds.getD i Cell.na)
          (cellScale (1/10) ((df.col "platform_reliability").getD i Cell.na))
      else ds.getD i Cell.na := by
  unfold synthRelStage
  split
  next hc => rw [getD_zipWith_cell _ ds _ i (h hc) hi]
  next => rfl

theorem synthClipStage_getD (ds : List Cell) (i : ℕ) (hi : i < ds.length) :
    (synthClipStage ds).getD i Cell.na =
      match (ds.getD i Cell.na).fnum with
      | some v => Cell.num (qClip v 0 1)
      | none => Cell.na := by
  unfold synthClipStage
  rw [getD_map_cell _ ds i hi]

theorem price_term_base (plat price : List Cell) (b : Bool) (pl pr : Cell)
    (hmem : ∀ p : String, pl = Cell.str p →
      p ∈ firstSeen (plat.filterMap (fun c => match c with
        | .str s => some s
        | _ => none))) :
    priceStep plat price b (Cell.num (1/2)) pr pl =
      cellOp2 (· + ·) (Cell.num (1/2)) (rowPriceTerm plat price b pl pr) := by
  cases b with
  | false =>
    cases pl <;> simp [priceStep, rowPriceTerm, cellOp2, Cell.fnum]
  | true =>
    cases pl with
    | str p =>
      show (if p ∈ firstSeen (plat.filterMap (fun c => match c with
            | .str s => some s
            | _ => none)) then
          applyPriceIncr plat price p (Cell.num (1/2)) pr
        else Cell.num (1/2)) =
        cellOp2 (· + ·) (Cell.num (1/2))
          (rowPriceTerm plat price true (Cell.str p) pr)
      rw [if_pos (hmem p rfl)]
      unfold applyPriceIncr
      show _ = cellOp2 (· + ·) (Cell.num (1/2))
        (if true && decide (1 < (groupPrices plat price p).length) &&
            stdPositive (groupPrices plat price p) then
          match pr.fnum with
          | some v =>
            Cell.num (3/10 * (1 - rankPct (numsOf (groupPrices plat price p)) v))
          | none => Cell.na
        else Cell.num 0)
      simp only [Bool.true_and]
      split
      next hg => rfl
      next hg => simp [cellOp2, Cell.fnum]
    | na => simp [priceStep, rowPriceTerm, cellOp2, Cell.fnum]
    | num v => simp [priceStep, rowPriceTerm, cellOp2, Cell.fnum]
    | strList l => simp [priceStep, rowPriceTerm, cellOp2, Cell.fnum]
    | boolean bb => simp [priceStep, rowPriceTerm, cellOp2, Cell.fnum]
    | time t => simp [priceStep, rowPriceTerm, cellOp2, Cell.fnum]

unseal Rat.add Rat.mul Rat.inv Rat.sub in
/-- Claim C5, amended: when synthetic labels are created, every record's
label is exactly baseline 0.5, plus the within-platform price-percentile
term `0.3 * (1 - rank_pct)` — applied only when the price column has a
numeric entry and the record's platform group has more than one row with
positive price std (degenerate groups contribute nothing) — plus
`0.2 * (minmax-normalized condition score)`, plus `0.3 * (max-normalized
priority score)` (both normalizations carrying a 1e-8 denominator guard),
minus the distance penalty `clip(distance/1000, 0, 0.2)`, plus
`0.1 * platform reliability`, the sum clipped to [0,1]; and for the three
ebay listings priced 500/1000/1500, the 500 listing's price-percentile
term `0.3 * (1 - 1/3) = 1/5` is strictly greater than the 1500 listing's
`0`. -/
theorem synthetic_label_rowwise :
    (∀ (df : DF) (i : ℕ), df.wf = true → df.hasCol "platform" = true →
      i < df.nrows →
      ((create_synthetic_labels df).col "deal_score").getD i Cell.na =
        rowSyntheticLabel df i) ∧
    (rowPriceTerm (tripleFeat.col "platform") (tripleFeat.col "price")
      (tripleFeat.hasCol "price" &&
        ((tripleFeat.col "price").any fun c => c.fnum.isSome))
      ((tripleFeat.col "platform").getD 0 Cell.na)
      ((tripleFeat.col "price").getD 0 Cell.na) = Cell.num (1/5)) ∧
    (rowPriceTerm (tripleFeat.col "platform") (tripleFeat.col "price")
      (tripleFeat.hasCol "price" &&
        ((tripleFeat.col "price").any fun c => c.fnum.isSome))
      ((tripleFeat.col "platform").getD 2 Cell.na)
      ((tripleFeat.col "price").getD 2 Cell.na) = Cell.num 0) ∧
    ((0 : ℚ) < 1/5) := by
  refine ⟨?_, ?_, ?_, by decide⟩
  · intro df i hwf hplat hi
    have hplatlen : (df.col "platform").length = df.nrows :=
      DF.col_length_of_wf df _ hwf hplat
    have L0 : (List.replicate df.nrows (Cell.num (1/2))).length = df.nrows := by
      simp
    have hP1 : (df.col "platform").length =
        (List.replicate df.nrows (Cell.num (1/2))).length := by
      rw [L0]; exact hplatlen
    have hP2 : df.hasCol "price" = true → (df.col "price").length =
        (List.replicate df.nrows (Cell.num (1/2))).length := fun hp => by
      rw [L0]; exact DF.col_length_of_wf df _ hwf hp
    have L1 : (synthPriceStage df
        (List.replicate df.nrows (Cell.num (1/2)))).length = df.nrows := by
      rw [synthPriceStage_length df _ hP1 hP2]; exact L0
    have hC2 : df.hasCol "condition_score" = true →
        (df.col "condition_score").length =
          (synthPriceStage df
            (List.replicate df.nrows (Cell.num (1/2)))).length := fun hc => by
      rw [L1]; exact DF.col_length_of_wf df _ hwf hc
    have L2 : (synthCondStage df (synthPriceStage df
        (List.replicate df.nrows (Cell.num (1/2))))).length = df.nrows := by
      rw [synthCondStage_length df _ hC2]; exact L1
    have hL3 : df.hasCol "lq4_priority_score" = true →
        (df.col "lq4_priority_score").length =
          (synthCondStage df (synthPriceStage df
            (List.replicate df.nrows (Cell.num (1/2))))).length := fun hc => by
      rw [L2]; exact DF.col_length_of_wf df _ hwf hc
    have L3 : (synthLq4Stage df (synthCondStage df (synthPriceStage df
        (List.replicate df.nrows (Cell.num (1/2)))))).length = df.nrows := by
      rw [synthLq4Stage_length df _ hL3]; exact L2
    have hD4 : df.hasCol "estimated_distance" = true →
        (df.col "estimated_distance").length =
          (synthLq4Stage df (synthCondStage df (synthPriceStage df
            (List.replicate df.nrows (Cell.num (1/2)))))).length := fun hc => by
      rw [L3]; exact DF.col_length_of_wf df _ hwf hc
    have L4 : (synthDistStage df (synthLq4Stage df (synthCondStage df
        (synthPriceStage df
          (List.replicate df.nrows (Cell.num (1/2))))))).length = df.nrows := by
      rw [synthDistStage_length df _ hD4]; exact L3
    have hR5 : df.hasCol "platform_reliability" = true →
        (df.col "platform_reliability").length =
          (synthDistStage df (synthLq4Stage df (synthCondStage df
            (synthPriceStage df
              (List.replicate df.nrows (Cell.num (1/2))))))).length := fun hc => by
      rw [L4]; exact DF.col_length_of_wf df _ hwf hc
    have L5 : (synthRelStage df (synthDistStage df (synthLq4Stage df
        (synthCondStage df (synthPriceStage df
          (List.replicate df.nrows (Cell.num (1/2)))))))).length = df.nrows := by
      rw [synthRelStage_length df _ hR5]; exact L4
    unfold create_synthetic_labels
    rw [DF.col_setCol_self]
    rw [synthClipStage_getD _ i (by rw [L5]; exact hi)]
    rw [synthRelStage_getD df _ i hR5 (by rw [L4]; exact hi)]
    rw [synthDistStage_getD df _ i hD4 (by rw [L3]; exact hi)]
    rw [synthLq4Stage_getD df _ i hL3 (by rw [L2]; exact hi)]
    rw [synthCondStage_getD df _ i hC2 (by rw [L1]; exact hi)]
    rw [synthPriceStage_getD df _ i hP1 hP2 (by rw [L0]; exact hi)]
    rw [getD_replicate_cell _ _ _ hi]
    rw [price_term_base (df.col "platform") (df.col "price") _ _ _
      (fun p hp => by
        rw [mem_firstSeen]
        refine List.mem_filterMap.mpr ⟨Cell.str p, ?_, rfl⟩
        rw [← hp]
        exact getD_mem_cell _ _ (by rw [hplatlen]; exact hi))]
    rfl
  · set_option maxHeartbeats 2000000 in decide
  · set_option maxHeartbeats 2000000 in decide

/-- Witness for `synthetic_label_rowwise`: the row-wise formula instance
at row 0 of the engineered three-listing frame. -/
theorem synthetic_label_rowwise_witness :
    (tripleFeat.wf = true ∧ tripleFeat.hasCol "platform" = true ∧
      0 < tripleFeat.nrows) ∧
    ((create_synthetic_labels tripleFeat).col "deal_score").getD 0 Cell.na =
      rowSyntheticLabel tripleFeat 0 :=
  ⟨⟨by set_option maxHeartbeats 2000000 in decide, by decide, by decide⟩,
   synthetic_label_rowwise.1 tripleFeat 0
     (by set_option maxHeartbeats 2000000 in decide) (by decide) (by decide)⟩

unseal Rat.add Rat.mul Rat.inv Rat.sub in
/-- Claim C5, counterexample: two identical ebay listings at the same
price.  The implementation skips the price-percentile term for the tied
group (`std = 0`) and yields 19/50 = 0.38 for both rows, while the
claimed formula — which always adds `0.3 * (1 - percentile)` with the
tied percentile 3/4 — yields 91/200 = 0.455. -/
theorem synthetic_label_tie_counterexample :
    (create_synthetic_labels pairFeat).col "deal_score" =
      [Cell.num (19/50), Cell.num (19/50)] ∧
    claimSyntheticLabel [500, 500] 500 0 0 0 0 0 500 (4/5) = 91/200 ∧
    ¬ ((19 : ℚ)/50 = 91/200) := by
  set_option maxHeartbeats 4000000 in decide

end EngineDeals
